import Mathlib

/-! TLS examples of `ericchiang/blog`: certificate issuance and OCSP stapling

A shallow embedding of the Go programs under `content/src/tls`:

* `ocsp.go`   : the closure `verifyOCSP` that a client runs on a fresh connection;
* `csr.go`    : `newSerialNum` and the part of `main` that turns an encoded
                certificate request into a signed server certificate;
* `certs.go`  : the part of `main` that creates the self-signed root;
* `sni.go`    : the closure `GetCertificate` that picks a certificate by server name;
* `yubikey.go`: `main`, with the session of the hardware token.

The programs call the Go libraries `crypto/x509`, `crypto/rand` and
`golang.org/x/crypto/ocsp`.  Those libraries are not part of the repository, so
every library function the programs call is a field of a record that the
embedded functions take as a parameter; theorems quantify over the record and
concrete records are only used to evaluate the functions at explicit inputs.
-/

namespace TLS

/-! ## Data model -/

/-- A Go byte slice. -/
abbrev Bytes := List Nat

/-- A `time.Time`, as nanoseconds since the Unix epoch. -/
abbrev Time := Int

/-- A `time.Duration`, in nanoseconds. -/
abbrev Duration := Int

/-- The constant `time.Second`. -/
def Second : Duration := 1000000000

/-- The constant `time.Minute`. -/
def Minute : Duration := 60 * Second

/-- The constant `time.Hour`. -/
def Hour : Duration := 60 * Minute

/-- The fields of `pkix.Name` that the programs set. -/
structure Name where
  CommonName : String := ""
  Organization : List String := []
deriving DecidableEq, Repr

/-- An `ecdsa.PublicKey` on P-256: the affine coordinates of the point. -/
structure EcdsaPublicKey where
  X : Nat
  Y : Nat
deriving DecidableEq, Repr

/-- An `ecdsa.PrivateKey`: the embedded public key and the scalar. -/
structure EcdsaPrivateKey where
  PublicKey : EcdsaPublicKey
  D : Nat
deriving DecidableEq, Repr

/-- The method `(*ecdsa.PrivateKey).Public`. -/
def EcdsaPrivateKey.Public (priv : EcdsaPrivateKey) : EcdsaPublicKey :=
  priv.PublicKey

/-- The type `x509.KeyUsage`, a bit mask. -/
abbrev KeyUsage := Nat

/-- The constant `x509.KeyUsageDigitalSignature` (`1 << 0`). -/
def KeyUsageDigitalSignature : KeyUsage := 1

/-- The constant `x509.KeyUsageKeyEncipherment` (`1 << 2`). -/
def KeyUsageKeyEncipherment : KeyUsage := 4

/-- The constant `x509.KeyUsageCertSign` (`1 << 5`). -/
def KeyUsageCertSign : KeyUsage := 32

/-- The type `x509.ExtKeyUsage`, an enumeration. -/
abbrev ExtKeyUsage := Nat

/-- The constant `x509.ExtKeyUsageServerAuth`. -/
def ExtKeyUsageServerAuth : ExtKeyUsage := 1

/-- The constant `x509.ExtKeyUsageClientAuth`. -/
def ExtKeyUsageClientAuth : ExtKeyUsage := 2

/-- A `pkix.Extension`. -/
structure Extension where
  Id : List Nat
  Critical : Bool
  Value : Bytes
deriving DecidableEq, Repr

/-- The fields of `x509.Certificate` that the programs read or write.  As in
Go the same type serves as a template and as a parsed certificate; a field
that a struct literal leaves out has its zero value. -/
structure Certificate where
  Raw : Bytes := []
  RawTBSCertificate : Bytes := []
  Signature : Bytes := []
  PublicKey : Option EcdsaPublicKey := none
  SerialNumber : Nat := 0
  Issuer : Name := {}
  Subject : Name := {}
  NotBefore : Time := 0
  NotAfter : Time := 0
  KeyUsage : KeyUsage := 0
  ExtKeyUsage : List ExtKeyUsage := []
  BasicConstraintsValid : Bool := false
  IsCA : Bool := false
  DNSNames : List String := []
  IPAddresses : List Bytes := []
deriving DecidableEq, Repr

/-- The fields of `x509.CertificateRequest` that matter to issuance:
what the programs copy (subject, SAN, public key) and what a requester can
put in besides (the requested extensions, among them an extended key usage). -/
structure CertificateRequest where
  Raw : Bytes := []
  Signature : Bytes := []
  PublicKey : EcdsaPublicKey
  Subject : Name := {}
  DNSNames : List String := []
  IPAddresses : List Bytes := []
  Extensions : List Extension := []
deriving DecidableEq, Repr

/-- The constant `ocsp.Good`. -/
def Good : Int := 0

/-- The constant `ocsp.Revoked`. -/
def Revoked : Int := 1

/-- The constant `ocsp.Unknown`. -/
def Unknown : Int := 2

/-- The fields of `ocsp.Response` that the programs read or write. -/
structure Response where
  Status : Int := 0
  SerialNumber : Nat := 0
  ThisUpdate : Time := 0
  NextUpdate : Time := 0
  TBSResponseData : Bytes := []
  Signature : Bytes := []
deriving DecidableEq, Repr

/-- The fields of `tls.ConnectionState` that `verifyOCSP` reads. -/
structure ConnectionState where
  OCSPResponse : Bytes := []
  VerifiedChains : List (List Certificate) := []
deriving DecidableEq, Repr

/-! ## Library interfaces -/

/-- The two functions of `golang.org/x/crypto/ocsp` that `verifyOCSP` calls.
A Go `error` result is an `Option String`: `none` is `nil`. -/
structure OCSPLib where
  ParseResponseForCert : Bytes → Certificate → Certificate → Except String Response
  CheckSignatureFrom : Response → Certificate → Option String

/-- The function `rand.Int(rand.Reader, max)` of `crypto/rand`, on a reader
whose state has type `σ`: the error or the number drawn, and the next state of
the reader. -/
structure RandLib (σ : Type) where
  Int : σ → Nat → Except String Nat × σ

/-- The functions of `crypto/x509` that the issuance programs call, and the
signature verification behind `(*x509.Certificate).CheckSignature`.

* `ParseCertificateRequest` is `x509.ParseCertificateRequest(asn1Data)`;
* `CSRCheckSignature` is the method `(*x509.CertificateRequest).CheckSignature`;
* `CreateCertificate template parent pub priv` is
  `x509.CreateCertificate(rand.Reader, template, parent, pub, priv)`;
* `ParseCertificate` is `x509.ParseCertificate(der)`;
* `Verify pub signed signature` tells whether `signature` is a signature of
  `signed` under the public key `pub`. -/
structure X509Lib where
  ParseCertificateRequest : Bytes → Except String CertificateRequest
  CSRCheckSignature : CertificateRequest → Option String
  CreateCertificate :
    Certificate → Certificate → EcdsaPublicKey → EcdsaPrivateKey → Except String Bytes
  ParseCertificate : Bytes → Except String Certificate
  Verify : EcdsaPublicKey → Bytes → Bytes → Bool

/-- The documented contract of `x509.CreateCertificate`: the certificate that
it returns, once parsed, has the subject of the template, the subject of the
parent as issuer and `pub` as public key, and its signature over the signed
part verifies under the public key of the signer `priv`. -/
def CreateCertificateContract (X : X509Lib) : Prop :=
  ∀ (template parent : Certificate) (pub : EcdsaPublicKey) (priv : EcdsaPrivateKey)
    (der : Bytes) (c : Certificate),
    X.CreateCertificate template parent pub priv = .ok der →
    X.ParseCertificate der = .ok c →
    c.Subject = template.Subject ∧ c.Issuer = parent.Subject ∧ c.PublicKey = some pub ∧
      X.Verify priv.Public c.RawTBSCertificate c.Signature = true

/-- The documented contract of `rand.Int`: the number drawn is below `max`. -/
def RandIntContract {σ : Type} (R : RandLib σ) : Prop :=
  ∀ (st st' : σ) (max v : Nat), R.Int st max = (.ok v, st') → v < max

/-! ## `ocsp.go`: `verifyOCSP` -/

/-- The four `fmt.Errorf` results of `verifyOCSP`, with the value each one
formats. -/
inductive VerifyError where
  | noStaple
  | invalidStapleData (err : String)
  | invalidSignature (err : String)
  | revoked (commonName : String)
deriving DecidableEq, Repr

/-- The text of each error, as `fmt.Errorf` builds it. -/
def VerifyError.Error : VerifyError → String
  | .noStaple => "remote didn't provide ocsp staple response"
  | .invalidStapleData err => "invalid ocsp staple data: " ++ err
  | .invalidSignature err => "invalid ocsp signature: " ++ err
  | .revoked commonName => "certificate revoked /cn=" ++ commonName

/-- The body of the inner loop of `verifyOCSP` (ocsp.go, lines 123-133) for one
`issuer, cert` pair: parse the staple for the pair, check the signature of the
parsed response against the issuer, then look at the status.  `none` means
that the loop goes on. -/
def checkLink (L : OCSPLib) (OCSPResponse : Bytes) (issuer cert : Certificate) :
    Option VerifyError :=
  match L.ParseResponseForCert OCSPResponse cert issuer with
  | .error err => some (.invalidStapleData err)
  | .ok resp =>
    match L.CheckSignatureFrom resp issuer with
    | some err => some (.invalidSignature err)
    | none =>
      if resp.Status ≠ Good then some (.revoked cert.Subject.CommonName) else none

/-- The inner loop `for i := 1; i < len(chain); i++` of `verifyOCSP`, with
`issuer, cert := chain[i], chain[i-1]`; it returns at the first error. -/
def verifyChain (L : OCSPLib) (OCSPResponse : Bytes) (chain : List Certificate) :
    Option VerifyError :=
  (List.range' 1 (chain.length - 1)).findSome? fun i =>
    match chain[i]?, chain[i - 1]? with
    | some issuer, some cert => checkLink L OCSPResponse issuer cert
    | _, _ => none

/-- The closure `verifyOCSP` of ocsp.go (lines 115-137) on the connection state
`s := conn.ConnectionState()`; `none` is the `nil` error. -/
def verifyOCSP (L : OCSPLib) (s : ConnectionState) : Option VerifyError :=
  if s.OCSPResponse.length = 0 then
    some .noStaple
  else
    s.VerifiedChains.findSome? (verifyChain L s.OCSPResponse)

/-- The inner loop of `verifyOCSP` over the indices `idxs`, which also records,
in order, every `issuer, cert` pair that it hands to `ParseResponseForCert`. -/
def verifyChainLogFrom (L : OCSPLib) (OCSPResponse : Bytes) (chain : List Certificate) :
    List Nat → List (Certificate × Certificate) × Option VerifyError
  | [] => ([], none)
  | i :: idxs =>
    match chain[i]?, chain[i - 1]? with
    | some issuer, some cert =>
      match checkLink L OCSPResponse issuer cert with
      | some e => ([(issuer, cert)], some e)
      | none =>
        ((issuer, cert) :: (verifyChainLogFrom L OCSPResponse chain idxs).1,
          (verifyChainLogFrom L OCSPResponse chain idxs).2)
    | _, _ => verifyChainLogFrom L OCSPResponse chain idxs

/-- The inner loop `for i := 1; i < len(chain); i++` with its record of the
pairs examined. -/
def verifyChainLog (L : OCSPLib) (OCSPResponse : Bytes) (chain : List Certificate) :
    List (Certificate × Certificate) × Option VerifyError :=
  verifyChainLogFrom L OCSPResponse chain (List.range' 1 (chain.length - 1))

/-- The outer loop `for _, chain := range s.VerifiedChains` with its record of
the pairs examined. -/
def verifyChainsLog (L : OCSPLib) (OCSPResponse : Bytes) :
    List (List Certificate) → List (Certificate × Certificate) × Option VerifyError
  | [] => ([], none)
  | chain :: rest =>
    match (verifyChainLog L OCSPResponse chain).2 with
    | some e => ((verifyChainLog L OCSPResponse chain).1, some e)
    | none =>
      ((verifyChainLog L OCSPResponse chain).1 ++ (verifyChainsLog L OCSPResponse rest).1,
        (verifyChainsLog L OCSPResponse rest).2)

/-- The closure `verifyOCSP` with its record of the `issuer, cert` pairs
examined, in the order of examination. -/
def verifyOCSPLog (L : OCSPLib) (s : ConnectionState) :
    List (Certificate × Certificate) × Option VerifyError :=
  if s.OCSPResponse.length = 0 then
    ([], some .noStaple)
  else
    verifyChainsLog L s.OCSPResponse s.VerifiedChains

/-- The adjacent (issuer, subject) pairs of a chain, from the leaf upwards: each
certificate but the last is paired, as subject, with the certificate after it. -/
def adjacentPairs (chain : List Certificate) : List (Certificate × Certificate) :=
  chain.tail.zip chain

/-- The elements of a list up to and including the first one that satisfies
`p`: all of the list when none does. -/
def takeThrough {α : Type} (p : α → Bool) : List α → List α
  | [] => []
  | a :: as => if p a then [a] else a :: takeThrough p as

/-! ## `csr.go` and `certs.go`: serial numbers, the root, issuance from a request -/

/-- The function `newSerialNum` (csr.go, lines 15-21; the same closure in
certs.go, ocsp.go and yubikey.go): one draw below `1 << 128` from the reader.
The `panic(err)` is the error result. -/
def newSerialNum {σ : Type} (R : RandLib σ) (st : σ) : Except String Nat × σ :=
  match R.Int st (1 <<< 128) with
  | (.error err, st') => (.error err, st')
  | (.ok serialNumber, st') => (.ok serialNumber, st')

/-- The serial numbers of `n` successive issuances from one authority: `n` calls
of `newSerialNum` on the same reader, one after the other (the list ends early
if a call panics). -/
def issueSerials {σ : Type} (R : RandLib σ) : Nat → σ → List Nat
  | 0, _ => []
  | n + 1, st =>
    match newSerialNum R st with
    | (.ok serialNumber, st') => serialNumber :: issueSerials R n st'
    | (.error _, _) => []

/-- The results of `n` successive calls of `rand.Int(rand.Reader, max)` on a
reader that starts in the state `st`: the `n` draws of the reader. -/
def randDraws {σ : Type} (R : RandLib σ) (max : Nat) : Nat → σ → List (Except String Nat)
  | 0, _ => []
  | n + 1, st => (R.Int st max).1 :: randDraws R max n (R.Int st max).2

/-- The numbers of a list of results up to its first error. -/
def okPrefix : List (Except String Nat) → List Nat
  | .ok v :: rest => v :: okPrefix rest
  | _ => []

/-- The struct literal `caTmpl` (certs.go, lines 36-48; csr.go, lines 45-57), from
the serial drawn and the two readings of `time.Now()`. -/
def caTmpl (serial : Nat) (now1 now2 : Time) : Certificate :=
  { Subject := { CommonName := "my-ca", Organization := ["Acme Co"] },
    SerialNumber := serial,
    BasicConstraintsValid := true,
    IsCA := true,
    NotBefore := now1,
    NotAfter := now2 + Hour,
    KeyUsage := KeyUsageKeyEncipherment ||| KeyUsageDigitalSignature ||| KeyUsageCertSign }

/-- The start of `main` in certs.go (lines 21-56): from the result `key` of
`ecdsa.GenerateKey`, create and parse the root certificate.  Each `log.Fatalf`
is an error result with its message. -/
def certsMainRoot {σ : Type} (X : X509Lib) (R : RandLib σ) (st : σ)
    (key : Except String EcdsaPrivateKey) (now1 now2 : Time) : Except String Certificate :=
  match key with
  | .error err => .error ("generating self-signed cert: " ++ err)
  | .ok caPriv =>
    let caPub := caPriv.Public
    match newSerialNum R st with
    | (.error err, _) => .error ("panic: " ++ err)
    | (.ok serial, _) =>
      match X.CreateCertificate (caTmpl serial now1 now2) (caTmpl serial now1 now2)
          caPub caPriv with
      | .error err => .error ("creating self-signed cert: " ++ err)
      | .ok caCertDER =>
        match X.ParseCertificate caCertDER with
        | .error err => .error ("parsing ca cert: " ++ err)
        | .ok caCert => .ok caCert

/-- The struct literal `servTmpl` of the issuance from a request (csr.go, lines
78-90; yubikey.go, lines 113-125). -/
def servTmpl (servCSR : CertificateRequest) (serial : Nat) (now1 now2 : Time) : Certificate :=
  { Subject := servCSR.Subject,
    IPAddresses := servCSR.IPAddresses,
    DNSNames := servCSR.DNSNames,
    SerialNumber := serial,
    NotBefore := now1,
    NotAfter := now2 + Hour,
    KeyUsage := KeyUsageKeyEncipherment ||| KeyUsageDigitalSignature,
    ExtKeyUsage := [ExtKeyUsageServerAuth] }

/-- What a run of the issuance has done when it ends: the message of the
`log.Fatalf` (or panic) that ended it, if any; the template, if it was built;
the signed certificate, if `x509.CreateCertificate` returned one.  The template
is handed to the signer as soon as it is built, so no template means no call of
the signer. -/
structure IssueRun where
  fatal : Option String := none
  servTmpl : Option Certificate := none
  servCertDER : Option Bytes := none
deriving DecidableEq, Repr

/-- The issuance from an encoded request (csr.go, lines 67-95; the same code in
yubikey.go, lines 102-130), as a function of the encoded request `csrDER` and
of the authority `caCert`, `caPriv` that the lines before have created. -/
def csrMainIssue {σ : Type} (X : X509Lib) (R : RandLib σ) (st : σ)
    (caCert : Certificate) (caPriv : EcdsaPrivateKey) (now1 now2 : Time)
    (csrDER : Bytes) : IssueRun :=
  match X.ParseCertificateRequest csrDER with
  | .error err => { fatal := some ("parsing csr: " ++ err) }
  | .ok servCSR =>
    match X.CSRCheckSignature servCSR with
    | some err => { fatal := some ("checking csr signature: " ++ err) }
    | none =>
      match newSerialNum R st with
      | (.error err, _) => { fatal := some ("panic: " ++ err) }
      | (.ok serial, _) =>
        let tmpl := servTmpl servCSR serial now1 now2
        let servPub := servCSR.PublicKey
        match X.CreateCertificate tmpl caCert servPub caPriv with
        | .error err => { fatal := some ("signing server cert: " ++ err), servTmpl := some tmpl }
        | .ok servCertDER => { servTmpl := some tmpl, servCertDER := some servCertDER }

/-! ## `ocsp.go`: the staple of the server certificate -/

/-- The function `ocsp.CreateResponse(issuer, responderCert, template, priv)`
of `golang.org/x/crypto/ocsp`, with the arguments in the order of the call. -/
structure OCSPResponderLib where
  CreateResponse :
    Certificate → Certificate → Response → EcdsaPrivateKey → Except String Bytes

/-- The struct literal `ocsp.Response{...}` that `main` hands to
`ocsp.CreateResponse` (ocsp.go, lines 105-110), from the server certificate and
the two readings of `time.Now()`. -/
def stapleTemplate (servCert : Certificate) (now1 now2 : Time) : Response :=
  { Status := Good,
    SerialNumber := servCert.SerialNumber,
    ThisUpdate := now1,
    NextUpdate := now2 + Minute }

/-- What the creation of the staple has done when it ends: the message of the
`log.Fatalf`, if any; the response handed to the signer; the staple, if
`ocsp.CreateResponse` returned one. -/
structure StapleRun where
  fatal : Option String := none
  template : Response
  OCSPStaple : Option Bytes := none
deriving DecidableEq, Repr

/-- The creation of the staple in `main` (ocsp.go, lines 105-113). -/
def ocspMainStaple (C : OCSPResponderLib) (caCert servCert : Certificate)
    (caPriv : EcdsaPrivateKey) (now1 now2 : Time) : StapleRun :=
  let template := stapleTemplate servCert now1 now2
  match C.CreateResponse caCert servCert template caPriv with
  | .error err => { fatal := some ("creating ocsp staple: " ++ err), template := template }
  | .ok staple => { template := template, OCSPStaple := some staple }

/-! ## `sni.go`: `GetCertificate` -/

/-- The fields of `tls.Certificate` that tell two certificates apart. -/
structure TLSCertificate where
  Certificate : List Bytes := []
  OCSPStaple : Bytes := []
deriving DecidableEq, Repr

/-- The field of `tls.ClientHelloInfo` that `GetCertificate` reads. -/
structure ClientHelloInfo where
  ServerName : String := ""
deriving DecidableEq, Repr

/-- The closure `GetCertificate` of sni.go (lines 25-35), on the two
certificates that `main` has loaded: the certificate returned (`none` is `nil`)
and the error (`none` is `nil`).  The `switch` compares strings byte for
byte. -/
def GetCertificate (certExample certSpam : TLSCertificate) (hello : ClientHelloInfo) :
    Option TLSCertificate × Option String :=
  if hello.ServerName = "example.org" then
    (some certExample, none)
  else if hello.ServerName = "spam.org" then
    (some certSpam, none)
  else
    (none, some ("unknown server name: " ++ hello.ServerName))

/-! ## `yubikey.go`: the session of the hardware token -/

/-- How a Go program leaves `main`: by returning, by `log.Fatalf` (which prints
and calls `os.Exit(1)`), or by a panic. -/
inductive Exit where
  | returned
  | fatal (msg : String)
  | panicked (msg : String)
deriving DecidableEq, Repr

/-- Whether Go runs the deferred calls of `main` on this way out: it does when
`main` returns and when it panics; `os.Exit`, hence `log.Fatalf`, ends the
program at once and runs none. -/
def Exit.runsDeferred : Exit → Bool
  | .returned => true
  | .panicked _ => true
  | .fatal _ => false

/-- The statement `if err != nil { log.Fatalf(msg + ": %v", err) }` on an
error result. -/
def fatalIfErr (msg : String) : Option String → Except Exit Unit
  | some err => .error (.fatal (msg ++ ": " ++ err))
  | none => .ok ()

/-- The statement `if err != nil { log.Fatalf(msg + ": %v", err) }` on a
result with a value. -/
def fatalUnlessOk {α : Type} (msg : String) : Except String α → Except Exit α
  | .error err => .error (.fatal (msg ++ ": " ++ err))
  | .ok a => .ok a

/-- The statement `if err != nil { panic(err) }` of `newSerialNum`. -/
def panicUnlessOk {α : Type} : Except String α → Except Exit α
  | .error err => .error (.panicked err)
  | .ok a => .ok a

/-- The results of the calls of yubikey.go that are neither `crypto/x509`
functions of `X509Lib` nor `rand.Int`:

* `New` is `ykpiv.New(options)`, `Login` and `Authenticate` the two methods of
  the token, `GenerateECWithPolicies` the key generation, whose slot is known
  by its public key, and `Update` the method `slot.Update(cert)`;
* `CreateCertificateRequest subject ips slot` is
  `x509.CreateCertificateRequest(rand.Reader, csr, slot)` on the request with
  that subject and those IP addresses;
* `GenerateKey` is `ecdsa.GenerateKey(elliptic.P256(), rand.Reader)`;
* `Get` is the error of `client.Get`. -/
structure YubikeyEnv where
  New : Except String Unit
  Login : Option String
  Authenticate : Option String
  GenerateECWithPolicies : Except String EcdsaPublicKey
  CreateCertificateRequest : Name → List Bytes → EcdsaPublicKey → Except String Bytes
  GenerateKey : Except String EcdsaPrivateKey
  Update : Certificate → Option String
  Get : Option String

/-- The value of `net.ParseIP("127.0.0.1")`: the 16-byte form of the IPv4
address. -/
def ParseIPLoopback : Bytes := [0, 0, 0, 0, 0, 0, 0, 0, 0, 0, 255, 255, 127, 0, 0, 1]

/-- The body of `main` in yubikey.go after `defer yk.Close()` (lines 40-188):
the way out of the first statement that fails, or the return at the end.  The
goroutine that serves TLS is not part of the model. -/
def yubikeyMainBody {σ : Type} (E : YubikeyEnv) (X : X509Lib) (R : RandLib σ) (st : σ)
    (now1 now2 now3 now4 : Time) : Except Exit Unit := do
  fatalIfErr "logging into yubikey" E.Login
  fatalIfErr "authenticating to yubikey" E.Authenticate
  let slot ← fatalUnlessOk "generating key on cert" E.GenerateECWithPolicies
  let csrDER ← fatalUnlessOk "generate csr"
    (E.CreateCertificateRequest { CommonName := "my-server", Organization := ["Acme Co"] }
      [ParseIPLoopback] slot)
  let caPriv ← fatalUnlessOk "generating self-signed cert" E.GenerateKey
  let caPub := caPriv.Public
  let serialCA ← panicUnlessOk (newSerialNum R st).1
  let caCertDER ← fatalUnlessOk "creating self-signed cert"
    (X.CreateCertificate (caTmpl serialCA now1 now2) (caTmpl serialCA now1 now2) caPub caPriv)
  let caCert ← fatalUnlessOk "parsing ca cert" (X.ParseCertificate caCertDER)
  let servCSR ← fatalUnlessOk "parsing csr" (X.ParseCertificateRequest csrDER)
  fatalIfErr "checking csr signature" (X.CSRCheckSignature servCSR)
  let serialServ ← panicUnlessOk (newSerialNum R (newSerialNum R st).2).1
  let tmpl := servTmpl servCSR serialServ now3 now4
  let servPub := servCSR.PublicKey
  let servCertDER ← fatalUnlessOk "signing server cert"
    (X.CreateCertificate tmpl caCert servPub caPriv)
  let servCert ← fatalUnlessOk "parsing server cert" (X.ParseCertificate servCertDER)
  fatalIfErr "loading cert to yubikey" (E.Update servCert)
  fatalIfErr "GET failed" E.Get

/-- What a run of `main` in yubikey.go has done when the program ends: how it
left `main`, whether the token was opened, and whether `yk.Close` has run. -/
structure YubikeyRun where
  exit : Exit
  opened : Bool
  closed : Bool
deriving DecidableEq, Repr

/-- The function `main` of yubikey.go: open the token, register
`defer yk.Close()`, run the body.  The deferred `Close` runs on the ways out on
which Go runs deferred calls. -/
def yubikeyMain {σ : Type} (E : YubikeyEnv) (X : X509Lib) (R : RandLib σ) (st : σ)
    (now1 now2 now3 now4 : Time) : YubikeyRun :=
  match E.New with
  | .error err => { exit := .fatal ("opening yubikey: " ++ err), opened := false, closed := false }
  | .ok () =>
    let exit : Exit :=
      match yubikeyMainBody E X R st now1 now2 now3 now4 with
      | .error e => e
      | .ok () => .returned
    { exit := exit, opened := true, closed := exit.runsDeferred }

/-! ## Concrete inputs -/

/-- A leaf certificate, serial 11. -/
def leafCert : Certificate :=
  { SerialNumber := 11, Subject := { CommonName := "my-server" },
    Issuer := { CommonName := "my-intermediate" } }

/-- An intermediate certificate, serial 12. -/
def interCert : Certificate :=
  { SerialNumber := 12, Subject := { CommonName := "my-intermediate" },
    Issuer := { CommonName := "my-ca" }, IsCA := true, BasicConstraintsValid := true }

/-- A root certificate, serial 13. -/
def rootCert : Certificate :=
  { SerialNumber := 13, Subject := { CommonName := "my-ca" },
    Issuer := { CommonName := "my-ca" }, IsCA := true, BasicConstraintsValid := true }

/-- A toy `golang.org/x/crypto/ocsp`.  A staple is
`[status, serial of the subject, serial of the signer, nextUpdate]`, or, for a
response of a delegated responder,
`[status, serial of the subject, serial of the responder, nextUpdate, serial of
the issuer of the responder certificate]`.  As in the library, parsing for
`cert` and `issuer` first looks for the serial of `cert`, then checks the
signature against `issuer`: the signer of a plain response, or the issuer of
the responder certificate of a delegated one, has to be `issuer`.  The
signature check `CheckSignatureFrom` compares the signer of the response itself
with the issuer. -/
def toyOCSP : OCSPLib where
  ParseResponseForCert := fun bytes cert issuer =>
    match bytes with
    | [status, serial, signer, nextUpdate] =>
      if serial = cert.SerialNumber then
        if signer = issuer.SerialNumber then
          .ok { Status := status, SerialNumber := serial, NextUpdate := nextUpdate,
                Signature := [signer] }
        else .error "bad OCSP signature: verification failure"
      else .error "no response matching the supplied certificate"
    | [status, serial, responder, nextUpdate, delegator] =>
      if serial = cert.SerialNumber then
        if delegator = issuer.SerialNumber then
          .ok { Status := status, SerialNumber := serial, NextUpdate := nextUpdate,
                Signature := [responder] }
        else .error "bad OCSP signature: verification failure"
      else .error "no response matching the supplied certificate"
    | _ => .error "malformed response"
  CheckSignatureFrom := fun resp issuer =>
    if resp.Signature = [issuer.SerialNumber] then none else some "verification failure"

/-- A reader whose state is the list of the numbers that it will draw. -/
def listRand : RandLib (List Nat) where
  Int := fun st max =>
    match st with
    | [] => (.error "EOF", [])
    | v :: rest => if v < max then (.ok v, rest) else (.error "number out of range", rest)

/-- The subject of the root in the programs. -/
def caName : Name := { CommonName := "my-ca", Organization := ["Acme Co"] }

/-- The subject of the server in the programs. -/
def serverName : Name := { CommonName := "my-server", Organization := ["Acme Co"] }

/-- The toy code of a name: 1 for the root, 2 for the server. -/
def toyNameCode (n : Name) : Option Nat :=
  if n = caName then some 1 else if n = serverName then some 2 else none

/-- The name of a toy code. -/
def toyNameOfCode : Nat → Option Name
  | 1 => some caName
  | 2 => some serverName
  | _ => none

/-- A toy `crypto/x509`.  A request is `[x, y, ip, sig]`: the public key, the
last byte of a 127.0.0.x address (0 for no address at all) and the
self-signature, which is valid when it is `x + y + ip`.  A certificate is
`[subject, issuer, serial, x, y, sig]`, where `sig` is the first coordinate of
the public key of the signer.  Like `crypto/x509`, `CreateCertificate` looks
neither at the validity window nor at the SAN of the template. -/
def toyX509 : X509Lib where
  ParseCertificateRequest := fun bytes =>
    match bytes with
    | [x, y, ip, sig] =>
      .ok { Raw := bytes, Signature := [sig], PublicKey := ⟨x, y⟩, Subject := serverName,
            IPAddresses := if ip = 0 then [] else [[127, 0, 0, ip]] }
    | _ => .error "malformed request"
  CSRCheckSignature := fun csr =>
    match csr.Raw with
    | [x, y, ip, sig] => if sig = x + y + ip then none else some "verification error"
    | _ => some "verification error"
  CreateCertificate := fun template parent pub priv =>
    match toyNameCode template.Subject, toyNameCode parent.Subject with
    | some s, some i => .ok [s, i, template.SerialNumber, pub.X, pub.Y, priv.PublicKey.X]
    | _, _ => .error "unsupported name"
  ParseCertificate := fun bytes =>
    match bytes with
    | [s, i, serial, x, y, sig] =>
      match toyNameOfCode s, toyNameOfCode i with
      | some subject, some issuer =>
        .ok { Raw := bytes, RawTBSCertificate := [s, i, serial, x, y], Signature := [sig],
              PublicKey := some ⟨x, y⟩, SerialNumber := serial, Issuer := issuer,
              Subject := subject }
      | _, _ => .error "malformed certificate"
    | _ => .error "malformed certificate"
  Verify := fun pub _ signature => decide (signature = [pub.X])

/-- A root key pair of the toy library. -/
def toyCaPriv : EcdsaPrivateKey := { PublicKey := ⟨5, 6⟩, D := 7 }

/-- The root certificate that the toy library creates for `toyCaPriv` with
serial 9. -/
def toyCaCert : Certificate :=
  { Raw := [1, 1, 9, 5, 6, 5], RawTBSCertificate := [1, 1, 9, 5, 6], Signature := [5],
    PublicKey := some ⟨5, 6⟩, SerialNumber := 9, Issuer := caName, Subject := caName }

/-- A toy request for 127.0.0.1 with a valid self-signature. -/
def csrWithIP : Bytes := [1, 2, 1, 4]

/-- The request `csrWithIP` with its signature byte changed. -/
def csrFlipped : Bytes := [1, 2, 1, 5]

/-- A toy request with no SAN entry and a valid self-signature. -/
def csrNoSAN : Bytes := [1, 2, 0, 3]

/-- The staple for the intermediate (serial 12), signed by the root (serial
13), with status revoked. -/
def stapleInterRevoked : Bytes := [1, 12, 13, 60000000000]

/-- The staple for the leaf (serial 11), signed by the root (serial 13), with
status revoked. -/
def stapleLeafRevoked : Bytes := [1, 11, 13, 60000000000]

/-- The staple for the leaf (serial 11), signed by the root (serial 13), with
status good and `NextUpdate` one minute after time 0. -/
def stapleLeafGood : Bytes := [0, 11, 13, 60000000000]

/-- The staple for the leaf (serial 11), with status good, signed by the key
of serial 12 and not by the root (serial 13). -/
def stapleLeafBadSig : Bytes := [0, 11, 12, 60000000000]

/-- The staple for the leaf (serial 11), with status good, of a delegated
responder: signed by the responder (serial 21), whose certificate the root
(serial 13) has issued. -/
def stapleLeafDelegated : Bytes := [0, 11, 21, 60000000000, 13]

/-- The response that `toyOCSP` parses `stapleLeafGood` to. -/
def respLeafGood : Response :=
  { Status := 0, SerialNumber := 11, NextUpdate := 60000000000, Signature := [13] }

/-- The response that `toyOCSP` parses `stapleLeafRevoked` to. -/
def respLeafRevoked : Response :=
  { Status := 1, SerialNumber := 11, NextUpdate := 60000000000, Signature := [13] }

/-- The response that `toyOCSP` parses `stapleInterRevoked` to. -/
def respInterRevoked : Response :=
  { Status := 1, SerialNumber := 12, NextUpdate := 60000000000, Signature := [13] }

/-- The response that `toyOCSP` parses `stapleLeafDelegated` to. -/
def respLeafDelegated : Response :=
  { Status := 0, SerialNumber := 11, NextUpdate := 60000000000, Signature := [21] }

/-- A toy `ocsp.CreateResponse`, which writes the staples that `toyOCSP` reads:
the status, the serial number of the response, the serial number of the
issuer as signer, and `NextUpdate`. -/
def toyResponder : OCSPResponderLib where
  CreateResponse := fun issuer _ template _ =>
    .ok [template.Status.toNat, template.SerialNumber, issuer.SerialNumber,
         template.NextUpdate.toNat]

/-- The certificate that sni.go loads for example.org. -/
def certExampleOrg : TLSCertificate := { Certificate := [[1]] }

/-- The certificate that sni.go loads for spam.org. -/
def certSpamOrg : TLSCertificate := { Certificate := [[2]] }

/-- A token on which every call succeeds; the request that its slot signs is
`csrWithIP`. -/
def tokenOk : YubikeyEnv where
  New := .ok ()
  Login := none
  Authenticate := none
  GenerateECWithPolicies := .ok ⟨1, 2⟩
  CreateCertificateRequest := fun _ _ _ => .ok csrWithIP
  GenerateKey := .ok toyCaPriv
  Update := fun _ => none
  Get := none

/-- The token `tokenOk` with a login that fails: the PIN is wrong. -/
def tokenWrongPIN : YubikeyEnv := { tokenOk with Login := some "wrong PIN" }

/-! ## Lemmas on the loops of `verifyOCSP` -/

/-- Two loop bodies that agree on every element of the list find the same
first error. -/
theorem findSome?_congr_on {α β : Type} {f g : α → Option β} :
    ∀ {l : List α}, (∀ x ∈ l, f x = g x) → l.findSome? f = l.findSome? g
  | [], _ => rfl
  | a :: l, h => by
    have ha : f a = g a := h a (List.mem_cons_self a l)
    have hl : l.findSome? f = l.findSome? g :=
      findSome?_congr_on fun x hx => h x (List.mem_cons_of_mem a hx)
    simp only [List.findSome?_cons, ha, hl]

/-- A chain with no certificate has no pair to check. -/
theorem verifyChain_nil (L : OCSPLib) (st : Bytes) : verifyChain L st [] = none := rfl

/-- A chain with one certificate has no pair to check. -/
theorem verifyChain_singleton (L : OCSPLib) (st : Bytes) (c : Certificate) :
    verifyChain L st [c] = none := rfl

/-- One turn of the inner loop: the first pair is `chain[1], chain[0]`, and the
rest of the loop is the loop on the chain without its first certificate. -/
theorem verifyChain_cons_cons (L : OCSPLib) (st : Bytes) (cert issuer : Certificate)
    (rest : List Certificate) :
    verifyChain L st (cert :: issuer :: rest) =
      match checkLink L st issuer cert with
      | some e => some e
      | none => verifyChain L st (issuer :: rest) := by
  have hshift : List.range' 2 rest.length = List.map (1 + ·) (List.range' 1 rest.length) := by
    rw [List.map_add_range']
  have hlen : (cert :: issuer :: rest).length - 1 = rest.length + 1 := by simp
  have hlen2 : (issuer :: rest).length - 1 = rest.length := by simp
  unfold verifyChain
  rw [hlen, hlen2, List.range'_succ, List.findSome?_cons, hshift, List.findSome?_map]
  have htail : ∀ x ∈ List.range' 1 rest.length,
      ((fun i => match (cert :: issuer :: rest)[i]?, (cert :: issuer :: rest)[i - 1]? with
          | some issuer, some cert => checkLink L st issuer cert
          | _, _ => none) ∘ (1 + ·)) x =
        (fun i => match (issuer :: rest)[i]?, (issuer :: rest)[i - 1]? with
          | some issuer, some cert => checkLink L st issuer cert
          | _, _ => none) x := by
    intro x hx
    have hx1 : 1 ≤ x := (List.mem_range'_1.mp hx).1
    obtain ⟨y, rfl⟩ : ∃ y, x = y + 1 := ⟨x - 1, by omega⟩
    have e1 : 1 + (y + 1) = (y + 1) + 1 := by omega
    simp only [Function.comp, e1, List.getElem?_cons_succ, Nat.add_sub_cancel]
  rw [findSome?_congr_on htail]
  simp only [List.getElem?_cons_succ, List.getElem?_cons_zero, Nat.sub_self]
  cases checkLink L st issuer cert <;> rfl

/-- The inner loop returns the error of a failing pair when every pair before
it passes. -/
theorem verifyChain_first_failure (L : OCSPLib) (st : Bytes) (e : VerifyError) :
    ∀ (chain : List Certificate) (i : Nat) (issuer cert : Certificate),
      1 ≤ i → chain[i]? = some issuer → chain[i - 1]? = some cert →
      checkLink L st issuer cert = some e →
      (∀ j a b, 1 ≤ j → j < i → chain[j]? = some a → chain[j - 1]? = some b →
        checkLink L st a b = none) →
      verifyChain L st chain = some e
  | [], i, _, _, _, hiss, _, _, _ => by simp at hiss
  | [c], i, _, _, hi, hiss, _, _, _ => by
    obtain ⟨k, rfl⟩ : ∃ k, i = k + 1 := ⟨i - 1, by omega⟩
    simp at hiss
  | c0 :: c1 :: rest, i, issuer, cert, hi, hiss, hcert, hfail, hprev => by
    rw [verifyChain_cons_cons]
    obtain ⟨k, rfl⟩ : ∃ k, i = k + 1 := ⟨i - 1, by omega⟩
    cases k with
    | zero =>
      simp at hiss hcert
      subst hiss hcert
      rw [hfail]
    | succ k =>
      have h1 : checkLink L st c1 c0 = none :=
        hprev 1 c1 c0 (Nat.le_refl 1) (by omega) (by simp) (by simp)
      rw [h1]
      have hiss2 : (c1 :: rest)[k + 1]? = some issuer := by simpa using hiss
      have hcert2 : (c1 :: rest)[k + 1 - 1]? = some cert := by simpa using hcert
      refine verifyChain_first_failure L st e (c1 :: rest) (k + 1) issuer cert
        (by omega) hiss2 hcert2 hfail ?_
      intro j a b hj hjk ha hb
      obtain ⟨m, rfl⟩ : ∃ m, j = m + 1 := ⟨j - 1, by omega⟩
      refine hprev (m + 1 + 1) a b (by omega) (by omega) (by simpa using ha) ?_
      simpa using hb

/-- The inner loop returns an error as soon as one pair of the chain fails. -/
theorem verifyChain_ne_none_of_failure (L : OCSPLib) (st : Bytes) :
    ∀ (chain : List Certificate) (i : Nat) (issuer cert : Certificate) (e : VerifyError),
      1 ≤ i → chain[i]? = some issuer → chain[i - 1]? = some cert →
      checkLink L st issuer cert = some e → verifyChain L st chain ≠ none
  | [], i, _, _, _, _, hiss, _, _ => by simp at hiss
  | [c], i, _, _, _, hi, hiss, _, _ => by
    obtain ⟨k, rfl⟩ : ∃ k, i = k + 1 := ⟨i - 1, by omega⟩
    simp at hiss
  | c0 :: c1 :: rest, i, issuer, cert, e, hi, hiss, hcert, hfail => by
    rw [verifyChain_cons_cons]
    cases h1 : checkLink L st c1 c0 with
    | some e1 => simp
    | none =>
      obtain ⟨k, rfl⟩ : ∃ k, i = k + 1 := ⟨i - 1, by omega⟩
      cases k with
      | zero =>
        simp at hiss hcert
        subst hiss hcert
        rw [h1] at hfail
        cases hfail
      | succ k =>
        have hiss2 : (c1 :: rest)[k + 1]? = some issuer := by simpa using hiss
        have hcert2 : (c1 :: rest)[k + 1 - 1]? = some cert := by simpa using hcert
        exact verifyChain_ne_none_of_failure L st (c1 :: rest) (k + 1) issuer cert e
          (by omega) hiss2 hcert2 hfail

/-- The outer loop: with a staple present, if the chains before `chain` pass
and `chain` fails with `e`, then `verifyOCSP` returns `e`. -/
theorem verifyOCSP_first_failure (L : OCSPLib) (s : ConnectionState)
    (pre post : List (List Certificate)) (chain : List Certificate) (e : VerifyError)
    (hne : s.OCSPResponse ≠ []) (hs : s.VerifiedChains = pre ++ chain :: post)
    (hpre : ∀ c ∈ pre, verifyChain L s.OCSPResponse c = none)
    (hchain : verifyChain L s.OCSPResponse chain = some e) :
    verifyOCSP L s = some e := by
  have hlen : ¬ s.OCSPResponse.length = 0 := by
    intro h
    exact hne (List.length_eq_zero.mp h)
  have hnone : pre.findSome? (verifyChain L s.OCSPResponse) = none :=
    List.findSome?_eq_none_iff.mpr hpre
  simp [verifyOCSP, hlen, hs, List.findSome?_append, hnone, List.findSome?_cons, hchain]

/-- The outer loop: `verifyOCSP` returns an error as soon as one verified chain
fails. -/
theorem verifyOCSP_ne_none_of_chain (L : OCSPLib) (s : ConnectionState)
    (chain : List Certificate) (hmem : chain ∈ s.VerifiedChains)
    (hchain : verifyChain L s.OCSPResponse chain ≠ none) : verifyOCSP L s ≠ none := by
  unfold verifyOCSP
  split
  · simp
  · intro h
    exact hchain (List.findSome?_eq_none_iff.mp h chain hmem)

/-- The inner loop is the search for the first failing adjacent pair. -/
theorem verifyChain_eq_findSome (L : OCSPLib) (st : Bytes) :
    ∀ chain : List Certificate,
      verifyChain L st chain =
        (adjacentPairs chain).findSome? fun p => checkLink L st p.1 p.2
  | [] => rfl
  | [_] => rfl
  | cert :: issuer :: rest => by
    rw [verifyChain_cons_cons, verifyChain_eq_findSome L st (issuer :: rest)]
    simp only [adjacentPairs, List.tail_cons, List.zip_cons_cons, List.findSome?_cons]
    cases checkLink L st issuer cert <;> rfl

/-- Shifting the indices by one matches dropping the first certificate. -/
theorem verifyChainLogFrom_shift (L : OCSPLib) (st : Bytes) (c0 : Certificate)
    (chain : List Certificate) :
    ∀ idxs : List Nat, (∀ x ∈ idxs, 1 ≤ x) →
      verifyChainLogFrom L st (c0 :: chain) (idxs.map (1 + ·)) =
        verifyChainLogFrom L st chain idxs
  | [], _ => rfl
  | i :: idxs, h => by
    have hi : 1 ≤ i := h i (List.mem_cons_self i idxs)
    have ih := verifyChainLogFrom_shift L st c0 chain idxs
      fun x hx => h x (List.mem_cons_of_mem i hx)
    obtain ⟨y, rfl⟩ : ∃ y, i = y + 1 := ⟨i - 1, by omega⟩
    have e1 : 1 + (y + 1) = (y + 1) + 1 := by omega
    simp only [List.map_cons, verifyChainLogFrom, e1, List.getElem?_cons_succ,
      Nat.add_sub_cancel, ih]

/-- One turn of the recording inner loop. -/
theorem verifyChainLog_cons_cons (L : OCSPLib) (st : Bytes) (cert issuer : Certificate)
    (rest : List Certificate) :
    verifyChainLog L st (cert :: issuer :: rest) =
      match checkLink L st issuer cert with
      | some e => ([(issuer, cert)], some e)
      | none =>
        ((issuer, cert) :: (verifyChainLog L st (issuer :: rest)).1,
          (verifyChainLog L st (issuer :: rest)).2) := by
  have hshift : List.range' 2 rest.length = List.map (1 + ·) (List.range' 1 rest.length) := by
    rw [List.map_add_range']
  have hlen : (cert :: issuer :: rest).length - 1 = rest.length + 1 := by simp
  have hlen2 : (issuer :: rest).length - 1 = rest.length := by simp
  have hge : ∀ x ∈ List.range' 1 rest.length, 1 ≤ x := fun x hx => (List.mem_range'_1.mp hx).1
  unfold verifyChainLog
  rw [hlen, hlen2, List.range'_succ, hshift]
  simp only [verifyChainLogFrom, List.getElem?_cons_succ, List.getElem?_cons_zero,
    Nat.sub_self, verifyChainLogFrom_shift L st cert (issuer :: rest) _ hge]

/-- What `takeThrough` does on a concatenation whose first part has no element
satisfying the test. -/
theorem takeThrough_append_of_none {α : Type} (p : α → Bool) :
    ∀ (l₁ l₂ : List α), (∀ x ∈ l₁, p x = false) →
      takeThrough p (l₁ ++ l₂) = l₁ ++ takeThrough p l₂
  | [], _, _ => rfl
  | a :: l₁, l₂, h => by
    have ha : p a = false := h a (List.mem_cons_self a l₁)
    have ih := takeThrough_append_of_none p l₁ l₂ fun x hx => h x (List.mem_cons_of_mem a hx)
    simp [takeThrough, ha, ih]

/-- `takeThrough` keeps all of a list that has no element satisfying the test. -/
theorem takeThrough_of_none {α : Type} (p : α → Bool) (l : List α)
    (h : ∀ x ∈ l, p x = false) : takeThrough p l = l := by
  have := takeThrough_append_of_none p l [] h
  simpa [takeThrough] using this

/-- What `takeThrough` does on a concatenation whose first part has an element
satisfying the test. -/
theorem takeThrough_append_of_some {α : Type} (p : α → Bool) :
    ∀ (l₁ l₂ : List α), (∃ x ∈ l₁, p x = true) →
      takeThrough p (l₁ ++ l₂) = takeThrough p l₁
  | [], _, h => by
    obtain ⟨x, hx, _⟩ := h
    cases hx
  | a :: l₁, l₂, h => by
    cases ha : p a with
    | true => simp [takeThrough, ha]
    | false =>
      have h2 : ∃ x ∈ l₁, p x = true := by
        obtain ⟨x, hx, hpx⟩ := h
        rcases List.mem_cons.mp hx with rfl | hx
        · rw [ha] at hpx
          cases hpx
        · exact ⟨x, hx, hpx⟩
      simp [takeThrough, ha, takeThrough_append_of_some p l₁ l₂ h2]

/-- The recording inner loop examines the adjacent pairs in order, through the
first failing one, and returns its error. -/
theorem verifyChainLog_eq (L : OCSPLib) (st : Bytes) :
    ∀ chain : List Certificate,
      verifyChainLog L st chain =
        (takeThrough (fun p => (checkLink L st p.1 p.2).isSome) (adjacentPairs chain),
          (adjacentPairs chain).findSome? fun p => checkLink L st p.1 p.2)
  | [] => rfl
  | [_] => rfl
  | cert :: issuer :: rest => by
    rw [verifyChainLog_cons_cons, verifyChainLog_eq L st (issuer :: rest)]
    have hadj : adjacentPairs (cert :: issuer :: rest) =
        (issuer, cert) :: adjacentPairs (issuer :: rest) := rfl
    rw [hadj]
    cases h : checkLink L st issuer cert with
    | some e => simp [takeThrough, h]
    | none => simp [takeThrough, h]

/-- The recording outer loop examines the adjacent pairs of the chains in
order, through the first failing one, and returns its error. -/
theorem verifyChainsLog_eq (L : OCSPLib) (st : Bytes) :
    ∀ chains : List (List Certificate),
      verifyChainsLog L st chains =
        (takeThrough (fun p => (checkLink L st p.1 p.2).isSome)
            (chains.map adjacentPairs).flatten,
          (chains.map adjacentPairs).flatten.findSome? fun p => checkLink L st p.1 p.2)
  | [] => rfl
  | chain :: rest => by
    simp only [verifyChainsLog, verifyChainLog_eq L st chain, verifyChainsLog_eq L st rest,
      List.map_cons, List.flatten_cons, List.findSome?_append]
    cases h : (adjacentPairs chain).findSome? fun p => checkLink L st p.1 p.2 with
    | some e =>
      obtain ⟨x, hx, hpx⟩ := List.exists_of_findSome?_eq_some h
      have hex : ∃ x ∈ adjacentPairs chain,
          (fun p : Certificate × Certificate => (checkLink L st p.1 p.2).isSome) x = true :=
        ⟨x, hx, by simp [hpx]⟩
      simp [takeThrough_append_of_some _ _ _ hex]
    | none =>
      have hall : ∀ x ∈ adjacentPairs chain,
          (fun p : Certificate × Certificate => (checkLink L st p.1 p.2).isSome) x = false := by
        intro x hx
        have := List.findSome?_eq_none_iff.mp h x hx
        simp [this]
      simp [takeThrough_append_of_none _ _ _ hall, takeThrough_of_none _ _ hall]

/-- The outer loop is the search for the first failing adjacent pair. -/
theorem verifyChains_eq_findSome (L : OCSPLib) (st : Bytes) :
    ∀ chains : List (List Certificate),
      chains.findSome? (verifyChain L st) =
        (chains.map adjacentPairs).flatten.findSome? fun p => checkLink L st p.1 p.2
  | [] => rfl
  | chain :: rest => by
    simp only [List.findSome?_cons, List.map_cons, List.flatten_cons, List.findSome?_append,
      verifyChain_eq_findSome L st chain, verifyChains_eq_findSome L st rest]
    cases (adjacentPairs chain).findSome? fun p => checkLink L st p.1 p.2 <;> rfl

/-- The pair of index `i - 1` in `adjacentPairs chain` is `(chain[i], chain[i-1])`. -/
theorem adjacentPairs_getElem? :
    ∀ (chain : List Certificate) (i : Nat), 1 ≤ i → i < chain.length →
      ∃ issuer cert, chain[i]? = some issuer ∧ chain[i - 1]? = some cert ∧
        (adjacentPairs chain)[i - 1]? = some (issuer, cert)
  | [], i, _, hlt => by simp at hlt
  | [_], i, hi, hlt => by
    simp at hlt
    omega
  | cert :: issuer :: rest, i, hi, hlt => by
    obtain ⟨k, rfl⟩ : ∃ k, i = k + 1 := ⟨i - 1, by omega⟩
    cases k with
    | zero => exact ⟨issuer, cert, by simp, by simp, by simp [adjacentPairs]⟩
    | succ k =>
      have hlt2 : k + 1 < (issuer :: rest).length := by
        simp only [List.length_cons] at hlt ⊢
        omega
      obtain ⟨a, b, ha, hb, hab⟩ := adjacentPairs_getElem? (issuer :: rest) (k + 1) (by omega) hlt2
      refine ⟨a, b, by simpa using ha, by simpa using hb, ?_⟩
      have hadj : adjacentPairs (cert :: issuer :: rest) =
          (issuer, cert) :: adjacentPairs (issuer :: rest) := rfl
      rw [hadj]
      simpa using hab

/-- A chain of `n` certificates has `n - 1` adjacent pairs. -/
theorem adjacentPairs_length (chain : List Certificate) :
    (adjacentPairs chain).length = chain.length - 1 := by
  simp [adjacentPairs, List.length_zip]

/-- A chain with fewer than two certificates passes the inner loop. -/
theorem verifyChain_short (L : OCSPLib) (st : Bytes) :
    ∀ chain : List Certificate, chain.length < 2 → verifyChain L st chain = none
  | [], _ => rfl
  | [_], _ => rfl
  | _ :: _ :: rest, h => by
    simp only [List.length_cons] at h
    omega

/-- Chains with fewer than two certificates have no adjacent pair. -/
theorem adjacentPairs_flatten_short :
    ∀ chains : List (List Certificate), (∀ chain ∈ chains, chain.length < 2) →
      (chains.map adjacentPairs).flatten = []
  | [], _ => rfl
  | chain :: rest, h => by
    have hrest := adjacentPairs_flatten_short rest
      fun x hx => h x (List.mem_cons_of_mem chain hx)
    have hc : chain.length < 2 := h chain (List.mem_cons_self chain rest)
    have hadj : adjacentPairs chain = [] := by
      match chain, hc with
      | [], _ => rfl
      | [_], _ => rfl
      | _ :: _ :: tl, hc =>
        simp only [List.length_cons] at hc
        omega
    simp only [List.map_cons, List.flatten_cons, hadj, hrest, List.append_nil]

/-! ## Lemmas on the toy libraries -/

/-- The toy reader draws below `max`. -/
theorem listRand_contract : RandIntContract listRand := by
  intro st st' max v h
  cases st with
  | nil => simp [listRand] at h
  | cons a rest =>
    by_cases ha : a < max
    · simp [listRand, ha] at h
      omega
    · simp [listRand, ha] at h

/-- Decoding the toy code of a name gives the name back. -/
theorem toyNameOfCode_toyNameCode (n : Name) (k : Nat) (h : toyNameCode n = some k) :
    toyNameOfCode k = some n := by
  unfold toyNameCode at h
  split at h
  · cases h
    subst n
    rfl
  · split at h
    · cases h
      subst n
      rfl
    · cases h

/-- The toy `crypto/x509` meets the contract of `CreateCertificate`. -/
theorem toyX509_contract : CreateCertificateContract toyX509 := by
  intro template parent pub priv der c hder hparse
  simp only [toyX509] at hder hparse
  cases hs : toyNameCode template.Subject with
  | none => simp [hs] at hder
  | some a =>
    cases hi : toyNameCode parent.Subject with
    | none => simp [hs, hi] at hder
    | some b =>
      simp only [hs, hi, Except.ok.injEq] at hder
      subst hder
      simp only [toyNameOfCode_toyNameCode _ _ hs, toyNameOfCode_toyNameCode _ _ hi,
        Except.ok.injEq] at hparse
      subst hparse
      simp [EcdsaPrivateKey.Public, toyX509]

/-! ## Theorems -/

/-- C1: whatever the verified chains are, a connection state whose stapled OCSP
response has length 0 makes `verifyOCSP` return the missing-staple error. -/
theorem verifyOCSP_missing_staple (L : OCSPLib) (s : ConnectionState)
    (h : s.OCSPResponse.length = 0) : verifyOCSP L s = some .noStaple := by
  simp [verifyOCSP, h]

/-- Witness of C1: no staple, one two-certificate chain. -/
theorem verifyOCSP_missing_staple_witness :
    ({ OCSPResponse := [], VerifiedChains := [[leafCert, rootCert]] } :
        ConnectionState).OCSPResponse.length = 0 ∧
      verifyOCSP toyOCSP { OCSPResponse := [], VerifiedChains := [[leafCert, rootCert]] }
        = some .noStaple :=
  ⟨rfl, verifyOCSP_missing_staple toyOCSP _ rfl⟩

/-- C2, counterexample: in the chain leaf, intermediate, root the staple parses
for the pair (root, intermediate), its signature verifies against the root and
its status is revoked, yet `verifyOCSP` returns the invalid-staple-data error
of the earlier pair (intermediate, leaf), not the revoked error. -/
theorem verifyOCSP_revoked_link_other_error :
    [leafCert, interCert, rootCert] ∈
        ({ OCSPResponse := stapleInterRevoked,
           VerifiedChains := [[leafCert, interCert, rootCert]] } : ConnectionState).VerifiedChains ∧
      [leafCert, interCert, rootCert][2]? = some rootCert ∧
      [leafCert, interCert, rootCert][2 - 1]? = some interCert ∧
      toyOCSP.ParseResponseForCert stapleInterRevoked interCert rootCert = .ok respInterRevoked ∧
      toyOCSP.CheckSignatureFrom respInterRevoked rootCert = none ∧
      respInterRevoked.Status ≠ Good ∧
      verifyOCSP toyOCSP { OCSPResponse := stapleInterRevoked,
                           VerifiedChains := [[leafCert, interCert, rootCert]] } =
        some (.invalidStapleData "no response matching the supplied certificate") ∧
      verifyOCSP toyOCSP { OCSPResponse := stapleInterRevoked,
                           VerifiedChains := [[leafCert, interCert, rootCert]] } ≠
        some (.revoked interCert.Subject.CommonName) := by
  refine ⟨by simp, rfl, rfl, rfl, rfl, by decide, rfl, by decide⟩

/-- C2, amended: if the staple parses for an adjacent (issuer, subject) pair of
a verified chain, its signature verifies against the issuer and its status is
not good, then `verifyOCSP` returns an error, so the staple is never accepted;
and when the staple is not empty, the chains before this one pass and the pairs
before this one in the chain pass, the error is the revoked error for the
subject. -/
theorem verifyOCSP_revoked_link (L : OCSPLib) (s : ConnectionState)
    (chain : List Certificate) (i : Nat) (issuer cert : Certificate) (resp : Response)
    (hmem : chain ∈ s.VerifiedChains) (hi : 1 ≤ i)
    (hiss : chain[i]? = some issuer) (hcert : chain[i - 1]? = some cert)
    (hparse : L.ParseResponseForCert s.OCSPResponse cert issuer = .ok resp)
    (hsig : L.CheckSignatureFrom resp issuer = none)
    (hstatus : resp.Status ≠ Good) :
    verifyOCSP L s ≠ none ∧
      (s.OCSPResponse ≠ [] →
        ∀ pre post, s.VerifiedChains = pre ++ chain :: post →
          (∀ c ∈ pre, verifyChain L s.OCSPResponse c = none) →
          (∀ j a b, 1 ≤ j → j < i → chain[j]? = some a → chain[j - 1]? = some b →
            checkLink L s.OCSPResponse a b = none) →
          verifyOCSP L s = some (.revoked cert.Subject.CommonName)) := by
  have hfail : checkLink L s.OCSPResponse issuer cert =
      some (.revoked cert.Subject.CommonName) := by
    simp [checkLink, hparse, hsig, hstatus]
  refine ⟨?_, ?_⟩
  · exact verifyOCSP_ne_none_of_chain L s chain hmem
      (verifyChain_ne_none_of_failure L s.OCSPResponse chain i issuer cert _ hi hiss hcert hfail)
  · intro hne pre post hs hpre hprev
    exact verifyOCSP_first_failure L s pre post chain _ hne hs hpre
      (verifyChain_first_failure L s.OCSPResponse _ chain i issuer cert hi hiss hcert hfail hprev)

/-- Witness of C2: the chain leaf, root with a revoked staple for the leaf
signed by the root. -/
theorem verifyOCSP_revoked_link_witness :
    verifyOCSP toyOCSP { OCSPResponse := stapleLeafRevoked,
                         VerifiedChains := [[leafCert, rootCert]] } ≠ none ∧
      verifyOCSP toyOCSP { OCSPResponse := stapleLeafRevoked,
                           VerifiedChains := [[leafCert, rootCert]] } =
        some (.revoked "my-server") := by
  have h := verifyOCSP_revoked_link toyOCSP
    { OCSPResponse := stapleLeafRevoked, VerifiedChains := [[leafCert, rootCert]] }
    [leafCert, rootCert] 1 rootCert leafCert respLeafRevoked
    (by simp) (Nat.le_refl 1) rfl rfl rfl rfl (by decide)
  refine ⟨h.1, h.2 (by decide) [] [] rfl (by simp) ?_⟩
  intro j a b hj hj1
  omega

/-- C3, counterexample: the staple for the leaf is correctly signed by the
root, has status good and `NextUpdate` one minute after time 0; at time 0
plus 61 seconds it is past its `NextUpdate`, and `verifyOCSP`, which reads no
clock and no `NextUpdate`, returns nil. -/
theorem verifyOCSP_stale_staple_accepted :
    toyOCSP.ParseResponseForCert stapleLeafGood leafCert rootCert = .ok respLeafGood ∧
      toyOCSP.CheckSignatureFrom respLeafGood rootCert = none ∧
      respLeafGood.Status = Good ∧
      respLeafGood.NextUpdate = 0 + Minute ∧
      respLeafGood.NextUpdate < 0 + 61 * Second ∧
      verifyOCSP toyOCSP { OCSPResponse := stapleLeafGood,
                           VerifiedChains := [[leafCert, rootCert]] } = none := by
  refine ⟨rfl, rfl, rfl, by decide, by decide, rfl⟩

/-- C3, amended: when the staple is not empty and, for every adjacent pair of
every verified chain, parses, is correctly signed by the issuer and has status
good, `verifyOCSP` returns nil.  Nothing is asked of `NextUpdate`, and
`verifyOCSP` takes no time: the staple is accepted at every time, before and
after its `NextUpdate`. -/
theorem verifyOCSP_good_staple_accepted (L : OCSPLib) (s : ConnectionState)
    (hne : s.OCSPResponse ≠ [])
    (hgood : ∀ chain ∈ s.VerifiedChains, ∀ i issuer cert, 1 ≤ i →
      chain[i]? = some issuer → chain[i - 1]? = some cert →
      ∃ resp, L.ParseResponseForCert s.OCSPResponse cert issuer = .ok resp ∧
        L.CheckSignatureFrom resp issuer = none ∧ resp.Status = Good) :
    verifyOCSP L s = none := by
  have hlen : ¬ s.OCSPResponse.length = 0 := fun h => hne (List.length_eq_zero.mp h)
  simp only [verifyOCSP, hlen, if_false, List.findSome?_eq_none_iff]
  intro chain hmem
  simp only [verifyChain, List.findSome?_eq_none_iff]
  intro i hi
  have hi1 : 1 ≤ i := (List.mem_range'_1.mp hi).1
  cases hiss : chain[i]? with
  | none => rfl
  | some issuer =>
    cases hcert : chain[i - 1]? with
    | none => rfl
    | some cert =>
      obtain ⟨resp, hp, hs, hst⟩ := hgood chain hmem i issuer cert hi1 hiss hcert
      simp [checkLink, hp, hs, hst]

/-- Witness of C3: the good staple with `NextUpdate` one minute after time 0 is
accepted, and 61 seconds after time 0 is later than its `NextUpdate`. -/
theorem verifyOCSP_good_staple_accepted_witness :
    respLeafGood.NextUpdate < 0 + 61 * Second ∧
      verifyOCSP toyOCSP { OCSPResponse := stapleLeafGood,
                           VerifiedChains := [[leafCert, rootCert]] } = none := by
  refine ⟨by decide, verifyOCSP_good_staple_accepted toyOCSP _ (by decide) ?_⟩
  intro chain hmem i issuer cert hi hiss hcert
  have hc : chain = [leafCert, rootCert] := by simpa using hmem
  subst hc
  obtain ⟨k, rfl⟩ : ∃ k, i = k + 1 := ⟨i - 1, by omega⟩
  cases k with
  | zero =>
    simp at hiss hcert
    subst hiss hcert
    exact ⟨respLeafGood, rfl, rfl, rfl⟩
  | succ k => simp at hiss

/-- C4, counterexample: in the chain leaf, root the staple for the leaf is
signed by another key than the root's, so its signature does not verify against
the issuer of the pair.  The library rejects it when it parses the staple for
the pair, and `verifyOCSP` returns the invalid-staple-data error with the
library's message, not an invalid-signature error. -/
theorem verifyOCSP_bad_signature_parse_error :
    2 ≤ [leafCert, rootCert].length ∧
      [leafCert, rootCert] ∈
        ({ OCSPResponse := stapleLeafBadSig,
           VerifiedChains := [[leafCert, rootCert]] } : ConnectionState).VerifiedChains ∧
      [leafCert, rootCert][1]? = some rootCert ∧
      [leafCert, rootCert][1 - 1]? = some leafCert ∧
      toyOCSP.ParseResponseForCert stapleLeafBadSig leafCert rootCert =
        .error "bad OCSP signature: verification failure" ∧
      verifyOCSP toyOCSP { OCSPResponse := stapleLeafBadSig,
                           VerifiedChains := [[leafCert, rootCert]] } =
        some (.invalidStapleData "bad OCSP signature: verification failure") ∧
      ∀ err, verifyOCSP toyOCSP { OCSPResponse := stapleLeafBadSig,
                                  VerifiedChains := [[leafCert, rootCert]] } ≠
        some (.invalidSignature err) := by
  refine ⟨by decide, by simp, rfl, rfl, rfl, rfl, ?_⟩
  intro err h
  have h2 : verifyOCSP toyOCSP ⟨stapleLeafBadSig, [[leafCert, rootCert]]⟩ =
      some (.invalidStapleData "bad OCSP signature: verification failure") := rfl
  rw [h2] at h
  cases h

/-- C4, amended: if for an adjacent (issuer, subject) pair of a verified chain
the staple does not get past the signature checks, that is, the library rejects
it when it parses the staple for the pair or the staple parses and the
signature of the parsed response does not verify against the issuer, then
`verifyOCSP` returns an error whatever the status of the response.  When the
staple is not empty, the chains before this one pass and the pairs before this
one in the chain pass, the error is the invalid-staple-data error with the
library's message in the first case and the invalid-signature error in the
second. -/
theorem verifyOCSP_bad_signature_rejected (L : OCSPLib) (s : ConnectionState)
    (chain : List Certificate) (i : Nat) (issuer cert : Certificate)
    (hmem : chain ∈ s.VerifiedChains) (hi : 1 ≤ i)
    (hiss : chain[i]? = some issuer) (hcert : chain[i - 1]? = some cert)
    (hbad : ∀ resp, L.ParseResponseForCert s.OCSPResponse cert issuer = .ok resp →
      L.CheckSignatureFrom resp issuer ≠ none) :
    verifyOCSP L s ≠ none ∧
      (s.OCSPResponse ≠ [] →
        ∀ pre post, s.VerifiedChains = pre ++ chain :: post →
          (∀ c ∈ pre, verifyChain L s.OCSPResponse c = none) →
          (∀ j a b, 1 ≤ j → j < i → chain[j]? = some a → chain[j - 1]? = some b →
            checkLink L s.OCSPResponse a b = none) →
          (∀ err, L.ParseResponseForCert s.OCSPResponse cert issuer = .error err →
            verifyOCSP L s = some (.invalidStapleData err)) ∧
          (∀ resp err, L.ParseResponseForCert s.OCSPResponse cert issuer = .ok resp →
            L.CheckSignatureFrom resp issuer = some err →
            verifyOCSP L s = some (.invalidSignature err))) := by
  refine ⟨?_, ?_⟩
  · have hfail : ∃ e, checkLink L s.OCSPResponse issuer cert = some e := by
      cases hp : L.ParseResponseForCert s.OCSPResponse cert issuer with
      | error err => exact ⟨.invalidStapleData err, by simp [checkLink, hp]⟩
      | ok resp =>
        cases hs : L.CheckSignatureFrom resp issuer with
        | none => exact absurd hs (hbad resp hp)
        | some err => exact ⟨.invalidSignature err, by simp [checkLink, hp, hs]⟩
    obtain ⟨e, he⟩ := hfail
    exact verifyOCSP_ne_none_of_chain L s chain hmem
      (verifyChain_ne_none_of_failure L s.OCSPResponse chain i issuer cert e hi hiss hcert he)
  · intro hne pre post hs hpre hprev
    refine ⟨?_, ?_⟩
    · intro err hp
      have he : checkLink L s.OCSPResponse issuer cert = some (.invalidStapleData err) := by
        simp [checkLink, hp]
      exact verifyOCSP_first_failure L s pre post chain _ hne hs hpre
        (verifyChain_first_failure L s.OCSPResponse _ chain i issuer cert hi hiss hcert he hprev)
    · intro resp err hp hsig
      have he : checkLink L s.OCSPResponse issuer cert = some (.invalidSignature err) := by
        simp [checkLink, hp, hsig]
      exact verifyOCSP_first_failure L s pre post chain _ hne hs hpre
        (verifyChain_first_failure L s.OCSPResponse _ chain i issuer cert hi hiss hcert he hprev)

/-- Witness of C4: on the chain leaf, root, the staple that another key has
signed gets the invalid-staple-data error, and the staple of a delegated
responder, which parses, gets the invalid-signature error. -/
theorem verifyOCSP_bad_signature_rejected_witness :
    verifyOCSP toyOCSP { OCSPResponse := stapleLeafBadSig,
                         VerifiedChains := [[leafCert, rootCert]] } =
        some (.invalidStapleData "bad OCSP signature: verification failure") ∧
      verifyOCSP toyOCSP { OCSPResponse := stapleLeafDelegated,
                           VerifiedChains := [[leafCert, rootCert]] } =
        some (.invalidSignature "verification failure") := by
  have hprev : ∀ (st : Bytes) (j : Nat) (a b : Certificate), 1 ≤ j → j < 1 →
      [leafCert, rootCert][j]? = some a → [leafCert, rootCert][j - 1]? = some b →
      checkLink toyOCSP st a b = none := by
    intro st j a b hj hj1
    omega
  have h1 := verifyOCSP_bad_signature_rejected toyOCSP
    { OCSPResponse := stapleLeafBadSig, VerifiedChains := [[leafCert, rootCert]] }
    [leafCert, rootCert] 1 rootCert leafCert (by simp) (Nat.le_refl 1) rfl rfl
    (by
      intro resp hp
      have hp2 : toyOCSP.ParseResponseForCert stapleLeafBadSig leafCert rootCert =
          .error "bad OCSP signature: verification failure" := rfl
      rw [hp2] at hp
      cases hp)
  have h2 := verifyOCSP_bad_signature_rejected toyOCSP
    { OCSPResponse := stapleLeafDelegated, VerifiedChains := [[leafCert, rootCert]] }
    [leafCert, rootCert] 1 rootCert leafCert (by simp) (Nat.le_refl 1) rfl rfl
    (by
      intro resp hp
      have hp2 : toyOCSP.ParseResponseForCert stapleLeafDelegated leafCert rootCert =
          .ok respLeafDelegated := rfl
      rw [hp2] at hp
      cases hp
      decide)
  exact ⟨(h1.2 (by decide) [] [] rfl (by simp) (hprev _)).1 _ rfl,
    (h2.2 (by decide) [] [] rfl (by simp) (hprev _)).2 respLeafDelegated _ rfl rfl⟩

/-- C5: `verifyOCSP` examines the adjacent pairs `(issuer = c[i], subject =
c[i-1])`, `1 ≤ i < n`, of each verified chain `c`, in increasing `i` and chain
after chain, and stops at the first failing pair, whose error it returns.  The
record of the pairs examined is that list of pairs cut after the first failing
one (and empty when there is no staple); the chain of `n` certificates has
`n - 1` pairs, the one of index `i - 1` being `(c[i], c[i-1])`, so that the last
certificate is never a subject. -/
theorem verifyOCSP_examined_pairs (L : OCSPLib) (s : ConnectionState) :
    (verifyOCSPLog L s).2 = verifyOCSP L s ∧
      (verifyOCSPLog L s).1 =
        (if s.OCSPResponse.length = 0 then []
         else takeThrough (fun p => (checkLink L s.OCSPResponse p.1 p.2).isSome)
                (s.VerifiedChains.map adjacentPairs).flatten) ∧
      verifyOCSP L s =
        (if s.OCSPResponse.length = 0 then some .noStaple
         else (s.VerifiedChains.map adjacentPairs).flatten.findSome?
                fun p => checkLink L s.OCSPResponse p.1 p.2) ∧
      ∀ chain ∈ s.VerifiedChains,
        (adjacentPairs chain).length = chain.length - 1 ∧
          ∀ i, 1 ≤ i → i < chain.length →
            ∃ issuer cert, chain[i]? = some issuer ∧ chain[i - 1]? = some cert ∧
              (adjacentPairs chain)[i - 1]? = some (issuer, cert) := by
  refine ⟨?_, ?_, ?_, ?_⟩
  · unfold verifyOCSPLog verifyOCSP
    split
    · rfl
    · rw [verifyChainsLog_eq, verifyChains_eq_findSome]
  · unfold verifyOCSPLog
    split
    · rfl
    · rw [verifyChainsLog_eq]
  · unfold verifyOCSP
    split
    · rfl
    · rw [verifyChains_eq_findSome]
  · intro chain _
    exact ⟨adjacentPairs_length chain, adjacentPairs_getElem? chain⟩

/-- C6: the issuance builds the template, and signs, only for a request that
parsed and whose self-signature check succeeded.  A template that was built is
the template of a parsed request with a verified self-signature; a signed
certificate comes from such a template; and when parsing fails, or the
self-signature does not verify, the run ends with the matching fatal message,
no template and no certificate. -/
theorem csrMainIssue_validates_first {σ : Type} (X : X509Lib) (R : RandLib σ) (st : σ)
    (caCert : Certificate) (caPriv : EcdsaPrivateKey) (now1 now2 : Time) (csrDER : Bytes) :
    (∀ tmpl, (csrMainIssue X R st caCert caPriv now1 now2 csrDER).servTmpl = some tmpl →
        ∃ servCSR serial, X.ParseCertificateRequest csrDER = .ok servCSR ∧
          X.CSRCheckSignature servCSR = none ∧ tmpl = servTmpl servCSR serial now1 now2) ∧
      (∀ der, (csrMainIssue X R st caCert caPriv now1 now2 csrDER).servCertDER = some der →
        ∃ servCSR tmpl, X.ParseCertificateRequest csrDER = .ok servCSR ∧
          X.CSRCheckSignature servCSR = none ∧
          (csrMainIssue X R st caCert caPriv now1 now2 csrDER).servTmpl = some tmpl ∧
          X.CreateCertificate tmpl caCert servCSR.PublicKey caPriv = .ok der) ∧
      (∀ err, X.ParseCertificateRequest csrDER = .error err →
        csrMainIssue X R st caCert caPriv now1 now2 csrDER =
          { fatal := some ("parsing csr: " ++ err), servTmpl := none, servCertDER := none }) ∧
      (∀ servCSR err, X.ParseCertificateRequest csrDER = .ok servCSR →
        X.CSRCheckSignature servCSR = some err →
        csrMainIssue X R st caCert caPriv now1 now2 csrDER =
          { fatal := some ("checking csr signature: " ++ err), servTmpl := none,
            servCertDER := none }) := by
  refine ⟨?_, ?_, ?_, ?_⟩
  · intro tmpl h
    unfold csrMainIssue at h
    cases hp : X.ParseCertificateRequest csrDER with
    | error e => simp [hp] at h
    | ok servCSR =>
      cases hc : X.CSRCheckSignature servCSR with
      | some e => simp [hp, hc] at h
      | none =>
        rcases hn : newSerialNum R st with ⟨r, st'⟩
        cases r with
        | error e => simp [hp, hc, hn] at h
        | ok serial =>
          refine ⟨servCSR, serial, rfl, hc, ?_⟩
          simp only [hp, hc, hn] at h
          cases hk : X.CreateCertificate (servTmpl servCSR serial now1 now2) caCert
              servCSR.PublicKey caPriv with
          | error e =>
            simp only [hk, Option.some.injEq] at h
            exact h.symm
          | ok d =>
            simp only [hk, Option.some.injEq] at h
            exact h.symm
  · intro der h
    unfold csrMainIssue at h ⊢
    cases hp : X.ParseCertificateRequest csrDER with
    | error e => simp [hp] at h
    | ok servCSR =>
      cases hc : X.CSRCheckSignature servCSR with
      | some e => simp [hp, hc] at h
      | none =>
        rcases hn : newSerialNum R st with ⟨r, st'⟩
        cases r with
        | error e => simp [hp, hc, hn] at h
        | ok serial =>
          simp only [hp, hc, hn] at h
          cases hk : X.CreateCertificate (servTmpl servCSR serial now1 now2) caCert
              servCSR.PublicKey caPriv with
          | error e => simp [hk] at h
          | ok d =>
            simp only [hk, Option.some.injEq] at h
            subst h
            exact ⟨servCSR, servTmpl servCSR serial now1 now2, rfl, hc, by simp [hc, hk], hk⟩
  · intro err hp
    simp [csrMainIssue, hp]
  · intro servCSR err hp hc
    simp [csrMainIssue, hp, hc]

/-- Witness of C6: the toy request whose signature byte was changed parses, its
self-signature does not verify, and the run ends with no template and no
certificate; the unchanged request is signed. -/
theorem csrMainIssue_validates_first_witness :
    csrMainIssue toyX509 listRand [21] toyCaCert toyCaPriv 100 101 csrFlipped =
        { fatal := some ("checking csr signature: " ++ "verification error"),
          servTmpl := none, servCertDER := none } ∧
      (csrMainIssue toyX509 listRand [21] toyCaCert toyCaPriv 100 101 csrWithIP).servCertDER =
        some [2, 1, 21, 1, 2, 5] :=
  ⟨(csrMainIssue_validates_first toyX509 listRand [21] toyCaCert toyCaPriv 100 101
      csrFlipped).2.2.2
      { Raw := csrFlipped, Signature := [5], PublicKey := ⟨1, 2⟩, Subject := serverName,
        IPAddresses := [[127, 0, 0, 1]] } "verification error" rfl rfl, rfl⟩

/-- C7: for a validated request the template handed to the signer has the
subject, the IP addresses and the DNS names of the request, while its serial
number is the number drawn, its validity window comes from the clock, its key
usage is `KeyEncipherment|DigitalSignature` and its extended key usage is
`[ServerAuth]`; those five fields are the same for any other validated
request, whatever it asks for. -/
theorem csrMainIssue_template_fields {σ : Type} (X : X509Lib) (R : RandLib σ) (st st' : σ)
    (caCert : Certificate) (caPriv : EcdsaPrivateKey) (now1 now2 : Time) (csrDER : Bytes)
    (servCSR : CertificateRequest) (serial : Nat)
    (hparse : X.ParseCertificateRequest csrDER = .ok servCSR)
    (hsig : X.CSRCheckSignature servCSR = none)
    (hserial : newSerialNum R st = (.ok serial, st')) :
    ∃ tmpl, (csrMainIssue X R st caCert caPriv now1 now2 csrDER).servTmpl = some tmpl ∧
      tmpl.Subject = servCSR.Subject ∧
      tmpl.IPAddresses = servCSR.IPAddresses ∧
      tmpl.DNSNames = servCSR.DNSNames ∧
      tmpl.SerialNumber = serial ∧
      tmpl.NotBefore = now1 ∧
      tmpl.NotAfter = now2 + Hour ∧
      tmpl.KeyUsage = KeyUsageKeyEncipherment ||| KeyUsageDigitalSignature ∧
      tmpl.ExtKeyUsage = [ExtKeyUsageServerAuth] ∧
      ∀ (csrDER2 : Bytes) (servCSR2 : CertificateRequest),
        X.ParseCertificateRequest csrDER2 = .ok servCSR2 →
        X.CSRCheckSignature servCSR2 = none →
        ∃ tmpl2, (csrMainIssue X R st caCert caPriv now1 now2 csrDER2).servTmpl = some tmpl2 ∧
          tmpl2.SerialNumber = tmpl.SerialNumber ∧ tmpl2.NotBefore = tmpl.NotBefore ∧
          tmpl2.NotAfter = tmpl.NotAfter ∧ tmpl2.KeyUsage = tmpl.KeyUsage ∧
          tmpl2.ExtKeyUsage = tmpl.ExtKeyUsage := by
  have key : ∀ (d : Bytes) (q : CertificateRequest),
      X.ParseCertificateRequest d = .ok q → X.CSRCheckSignature q = none →
      (csrMainIssue X R st caCert caPriv now1 now2 d).servTmpl =
        some (servTmpl q serial now1 now2) := by
    intro d q hp hc
    unfold csrMainIssue
    simp only [hp, hc, hserial]
    cases X.CreateCertificate (servTmpl q serial now1 now2) caCert q.PublicKey caPriv <;> rfl
  refine ⟨servTmpl servCSR serial now1 now2, key csrDER servCSR hparse hsig,
    rfl, rfl, rfl, rfl, rfl, rfl, rfl, rfl, ?_⟩
  intro csrDER2 servCSR2 hp2 hc2
  exact ⟨servTmpl servCSR2 serial now1 now2, key csrDER2 servCSR2 hp2 hc2,
    rfl, rfl, rfl, rfl, rfl⟩

/-- Witness of C7: the toy request for 127.0.0.1, with serial 21 drawn. -/
theorem csrMainIssue_template_fields_witness :
    ∃ tmpl, (csrMainIssue toyX509 listRand [21] toyCaCert toyCaPriv 100 101 csrWithIP).servTmpl
        = some tmpl ∧
      tmpl.Subject = serverName ∧ tmpl.IPAddresses = [[127, 0, 0, 1]] ∧ tmpl.DNSNames = [] ∧
      tmpl.SerialNumber = 21 ∧ tmpl.KeyUsage = 5 ∧ tmpl.ExtKeyUsage = [ExtKeyUsageServerAuth] := by
  obtain ⟨tmpl, h, hs, hip, hdns, hser, _, _, hku, heku, _⟩ :=
    csrMainIssue_template_fields toyX509 listRand [21] [] toyCaCert toyCaPriv 100 101 csrWithIP
      { Raw := csrWithIP, Signature := [4], PublicKey := ⟨1, 2⟩, Subject := serverName,
        IPAddresses := [[127, 0, 0, 1]] } 21 rfl rfl rfl
  exact ⟨tmpl, h, hs, hip, hdns, hser, hku, heku⟩

/-- C8, counterexample: a reader that yields the number 7 twice gives two
issuances, out of at most `10^5`, the same serial number. -/
theorem issueSerials_repeat :
    2 ≤ 10 ^ 5 ∧ issueSerials listRand 2 [7, 7] = [7, 7] ∧
      ¬ (issueSerials listRand 2 [7, 7]).Nodup := by
  refine ⟨by norm_num, rfl, ?_⟩
  have h : issueSerials listRand 2 [7, 7] = [7, 7] := rfl
  rw [h]
  decide

/-- C8, amended: each serial number is exactly the number that
`rand.Int(rand.Reader, 1 << 128)` draws, hence below `2^128` for a reader that
meets the contract of `rand.Int`, and `newSerialNum` keeps no record of the
serials issued.  The serials of `n` successive issuances are, in order, the
numbers of the `n` draws of the reader up to the first draw that fails; when
the `n` draws succeed with the numbers `vs`, the serials are `vs`, so they are
pairwise distinct exactly when the draws are.  In particular a reader that
draws the same number twice in a row gives two issuances the same serial. -/
theorem newSerialNum_is_the_draw {σ : Type} (R : RandLib σ) (hR : RandIntContract R) :
    (∀ st, newSerialNum R st = R.Int st (2 ^ 128)) ∧
      (∀ n st, ∀ x ∈ issueSerials R n st, x < 2 ^ 128) ∧
      (∀ st st' st'' v, R.Int st (2 ^ 128) = (.ok v, st') →
        R.Int st' (2 ^ 128) = (.ok v, st'') → issueSerials R 2 st = [v, v]) ∧
      (∀ n st, issueSerials R n st = okPrefix (randDraws R (2 ^ 128) n st)) ∧
      (∀ n st vs, randDraws R (2 ^ 128) n st = vs.map Except.ok →
        issueSerials R n st = vs ∧ ((issueSerials R n st).Nodup ↔ vs.Nodup)) := by
  have hshift : (1 <<< 128 : Nat) = 2 ^ 128 := by simp [Nat.shiftLeft_eq]
  have h1 : ∀ st, newSerialNum R st = R.Int st (2 ^ 128) := by
    intro st
    unfold newSerialNum
    rw [hshift]
    rcases R.Int st (2 ^ 128) with ⟨r, st'⟩
    cases r <;> rfl
  have h4 : ∀ n st, issueSerials R n st = okPrefix (randDraws R (2 ^ 128) n st) := by
    intro n
    induction n with
    | zero =>
      intro st
      rfl
    | succ n ih =>
      intro st
      unfold issueSerials randDraws
      rw [h1]
      rcases hd : R.Int st (2 ^ 128) with ⟨r, st'⟩
      cases r with
      | error e => rfl
      | ok v =>
        show v :: issueSerials R n st' = v :: okPrefix (randDraws R (2 ^ 128) n st')
        rw [ih st']
  have hok : ∀ vs : List Nat, okPrefix (vs.map Except.ok) = vs := by
    intro vs
    induction vs with
    | nil => rfl
    | cons v vs ih =>
      show v :: okPrefix (vs.map Except.ok) = v :: vs
      rw [ih]
  refine ⟨h1, ?_, ?_, h4, ?_⟩
  · intro n
    induction n with
    | zero =>
      intro st x hx
      simp [issueSerials] at hx
    | succ n ih =>
      intro st x hx
      unfold issueSerials at hx
      rcases hn : newSerialNum R st with ⟨r, st'⟩
      rw [hn] at hx
      cases r with
      | error e => simp at hx
      | ok v =>
        simp only [List.mem_cons] at hx
        rcases hx with rfl | hx
        · rw [h1] at hn
          exact hR st st' _ _ hn
        · exact ih st' x hx
  · intro st st' st'' v ha hb
    simp only [issueSerials, h1, ha, hb]
  · intro n st vs hvs
    have heq : issueSerials R n st = vs := by
      rw [h4, hvs, hok]
    exact ⟨heq, by rw [heq]⟩

/-- Witness of C8: the toy reader meets the contract, its draws 7 and 8 succeed
and are, in order, the two serials, which are below `2^128` and distinct. -/
theorem newSerialNum_is_the_draw_witness :
    newSerialNum listRand [7, 8] = (.ok 7, [8]) ∧
      (∀ x ∈ issueSerials listRand 2 [7, 8], x < 2 ^ 128) ∧
      randDraws listRand (2 ^ 128) 2 [7, 8] = [7, 8].map Except.ok ∧
      issueSerials listRand 2 [7, 8] = [7, 8] ∧
      (issueSerials listRand 2 [7, 8]).Nodup :=
  ⟨rfl, (newSerialNum_is_the_draw listRand listRand_contract).2.1 2 [7, 8], rfl,
    ((newSerialNum_is_the_draw listRand listRand_contract).2.2.2.2 2 [7, 8] [7, 8] rfl).1,
    ((newSerialNum_is_the_draw listRand listRand_contract).2.2.2.2 2 [7, 8] [7, 8] rfl).2.mpr
      (by decide)⟩

/-- C9: when the library calls succeed, the start of `main` in certs.go returns
the parsed root certificate, and under the contract of `CreateCertificate` that
certificate is self-signed: its issuer is its subject, its public key is the
public key of the generated pair, and its signature verifies under that key. -/
theorem certsMainRoot_self_signed {σ : Type} (X : X509Lib) (R : RandLib σ) (st st' : σ)
    (caPriv : EcdsaPrivateKey) (now1 now2 : Time) (serial : Nat) (der : Bytes)
    (caCert : Certificate)
    (hX : CreateCertificateContract X)
    (hserial : newSerialNum R st = (.ok serial, st'))
    (hder : X.CreateCertificate (caTmpl serial now1 now2) (caTmpl serial now1 now2)
      caPriv.Public caPriv = .ok der)
    (hparse : X.ParseCertificate der = .ok caCert) :
    certsMainRoot X R st (.ok caPriv) now1 now2 = .ok caCert ∧
      caCert.Issuer = caCert.Subject ∧
      caCert.PublicKey = some caPriv.Public ∧
      ∀ pub, caCert.PublicKey = some pub →
        X.Verify pub caCert.RawTBSCertificate caCert.Signature = true := by
  obtain ⟨hsub, hiss, hpub, hver⟩ := hX _ _ _ _ _ _ hder hparse
  refine ⟨?_, ?_, hpub, ?_⟩
  · simp [certsMainRoot, hserial, hder, hparse]
  · rw [hsub, hiss]
  · intro pub hp
    rw [hpub] at hp
    cases hp
    exact hver

/-- Witness of C9: the root that the toy library creates for `toyCaPriv`. -/
theorem certsMainRoot_self_signed_witness :
    certsMainRoot toyX509 listRand [9] (.ok toyCaPriv) 100 101 = .ok toyCaCert ∧
      toyCaCert.Issuer = toyCaCert.Subject ∧
      toyCaCert.PublicKey = some toyCaPriv.Public ∧
      ∀ pub, toyCaCert.PublicKey = some pub →
        toyX509.Verify pub toyCaCert.RawTBSCertificate toyCaCert.Signature = true :=
  certsMainRoot_self_signed toyX509 listRand [9] [] toyCaPriv 100 101 9 [1, 1, 9, 5, 6, 5]
    toyCaCert toyX509_contract rfl rfl rfl

/-- C10, counterexample: the toy request with no SAN entry parses and its
self-signature verifies; the issuance builds a template with the server-auth
extended key usage, no IP address and no DNS name, and the signer returns a
certificate: there is no invalid-template failure. -/
theorem csrMainIssue_signs_without_san :
    (∃ servCSR, toyX509.ParseCertificateRequest csrNoSAN = .ok servCSR ∧
        toyX509.CSRCheckSignature servCSR = none ∧
        servCSR.IPAddresses = [] ∧ servCSR.DNSNames = []) ∧
      csrMainIssue toyX509 listRand [21] toyCaCert toyCaPriv 100 101 csrNoSAN =
        { fatal := none,
          servTmpl := some
            { Subject := serverName, SerialNumber := 21, NotBefore := 100,
              NotAfter := 101 + Hour,
              KeyUsage := KeyUsageKeyEncipherment ||| KeyUsageDigitalSignature,
              ExtKeyUsage := [ExtKeyUsageServerAuth], IPAddresses := [], DNSNames := [] },
          servCertDER := some [2, 1, 21, 1, 2, 5] } :=
  ⟨⟨_, rfl, rfl, rfl, rfl⟩, rfl⟩

/-- C10, amended: the issuance has no check of its own on the template.  For a
validated request it hands the template, whatever its SAN and its validity
window, to `x509.CreateCertificate`, and the run fails, with the message of a
signing failure, exactly when that call fails; otherwise the certificate is
signed. -/
theorem csrMainIssue_defers_to_signer {σ : Type} (X : X509Lib) (R : RandLib σ) (st st' : σ)
    (caCert : Certificate) (caPriv : EcdsaPrivateKey) (now1 now2 : Time) (csrDER : Bytes)
    (servCSR : CertificateRequest) (serial : Nat)
    (hparse : X.ParseCertificateRequest csrDER = .ok servCSR)
    (hsig : X.CSRCheckSignature servCSR = none)
    (hserial : newSerialNum R st = (.ok serial, st')) :
    csrMainIssue X R st caCert caPriv now1 now2 csrDER =
      match X.CreateCertificate (servTmpl servCSR serial now1 now2) caCert
          servCSR.PublicKey caPriv with
      | .error err =>
        { fatal := some ("signing server cert: " ++ err),
          servTmpl := some (servTmpl servCSR serial now1 now2), servCertDER := none }
      | .ok servCertDER =>
        { fatal := none, servTmpl := some (servTmpl servCSR serial now1 now2),
          servCertDER := some servCertDER } := by
  unfold csrMainIssue
  simp only [hparse, hsig, hserial]

/-- Witness of C10: the toy request with no SAN entry is signed. -/
theorem csrMainIssue_defers_to_signer_witness :
    (csrMainIssue toyX509 listRand [21] toyCaCert toyCaPriv 100 101 csrNoSAN).servCertDER =
      some [2, 1, 21, 1, 2, 5] := by
  rw [csrMainIssue_defers_to_signer toyX509 listRand [21] [] toyCaCert toyCaPriv 100 101
    csrNoSAN { Raw := csrNoSAN, Signature := [3], PublicKey := ⟨1, 2⟩, Subject := serverName,
               IPAddresses := [] } 21 rfl rfl rfl]
  rfl

/-- C11, counterexample: with the two readings of the clock one nanosecond
apart, the response handed to the signer has a `NextUpdate` that is not its
`ThisUpdate` plus one minute. -/
theorem ocspMainStaple_next_update_not_exact :
    (ocspMainStaple toyResponder rootCert leafCert toyCaPriv 100 101).template.ThisUpdate
        = 100 ∧
      (ocspMainStaple toyResponder rootCert leafCert toyCaPriv 100 101).template.NextUpdate
        = 101 + Minute ∧
      (ocspMainStaple toyResponder rootCert leafCert toyCaPriv 100 101).template.NextUpdate ≠
        (ocspMainStaple toyResponder rootCert leafCert toyCaPriv 100 101).template.ThisUpdate
          + Minute := by
  refine ⟨rfl, rfl, by decide⟩

/-- C11, amended: the response handed to the signer carries the serial number
of the server certificate and the status good; its `ThisUpdate` is the first
reading of the clock and its `NextUpdate` the second reading plus one minute,
so `NextUpdate` is `ThisUpdate` plus one minute exactly when the two readings
are equal, and at least that when the clock does not go back. -/
theorem ocspMainStaple_template (C : OCSPResponderLib) (caCert servCert : Certificate)
    (caPriv : EcdsaPrivateKey) (now1 now2 : Time) :
    (ocspMainStaple C caCert servCert caPriv now1 now2).template.SerialNumber =
        servCert.SerialNumber ∧
      (ocspMainStaple C caCert servCert caPriv now1 now2).template.Status = Good ∧
      (ocspMainStaple C caCert servCert caPriv now1 now2).template.ThisUpdate = now1 ∧
      (ocspMainStaple C caCert servCert caPriv now1 now2).template.NextUpdate =
        now2 + Minute ∧
      ((ocspMainStaple C caCert servCert caPriv now1 now2).template.NextUpdate =
          (ocspMainStaple C caCert servCert caPriv now1 now2).template.ThisUpdate + Minute ↔
        now1 = now2) ∧
      (now1 ≤ now2 →
        (ocspMainStaple C caCert servCert caPriv now1 now2).template.ThisUpdate + Minute ≤
          (ocspMainStaple C caCert servCert caPriv now1 now2).template.NextUpdate) := by
  have ht : (ocspMainStaple C caCert servCert caPriv now1 now2).template =
      stapleTemplate servCert now1 now2 := by
    cases h : C.CreateResponse caCert servCert (stapleTemplate servCert now1 now2) caPriv with
    | error err => simp only [ocspMainStaple, h]
    | ok staple => simp only [ocspMainStaple, h]
  rw [ht]
  refine ⟨rfl, rfl, rfl, rfl, ?_, ?_⟩
  · show now2 + Minute = now1 + Minute ↔ now1 = now2
    constructor
    · intro h
      exact (add_right_cancel h).symm
    · intro h
      rw [h]
  · intro h
    show now1 + Minute ≤ now2 + Minute
    exact add_le_add_right h Minute

/-- Witness of C11: with both readings at time 0 the staple of the leaf is the
good staple whose `NextUpdate` is one minute after its `ThisUpdate`. -/
theorem ocspMainStaple_template_witness :
    (ocspMainStaple toyResponder rootCert leafCert toyCaPriv 0 0).template.SerialNumber = 11 ∧
      (ocspMainStaple toyResponder rootCert leafCert toyCaPriv 0 0).template.NextUpdate =
        (ocspMainStaple toyResponder rootCert leafCert toyCaPriv 0 0).template.ThisUpdate
          + Minute ∧
      (ocspMainStaple toyResponder rootCert leafCert toyCaPriv 0 0).OCSPStaple =
        some stapleLeafGood :=
  ⟨(ocspMainStaple_template toyResponder rootCert leafCert toyCaPriv 0 0).1,
    (ocspMainStaple_template toyResponder rootCert leafCert toyCaPriv 0 0).2.2.2.2.1.mpr rfl,
    rfl⟩

/-- C12: once the token is opened, `yk.Close` has run when the program ends
exactly when `main` was not left by `log.Fatalf`.  When `Login`, `Authenticate`
or the key generation fails, `main` is left by `log.Fatalf` and the program
ends with the session still open. -/
theorem yubikeyMain_closed_iff_not_fatal {σ : Type} (E : YubikeyEnv) (X : X509Lib)
    (R : RandLib σ) (st : σ) (now1 now2 now3 now4 : Time) :
    ((yubikeyMain E X R st now1 now2 now3 now4).opened = true →
        ((yubikeyMain E X R st now1 now2 now3 now4).closed = true ↔
          ∀ msg, (yubikeyMain E X R st now1 now2 now3 now4).exit ≠ .fatal msg)) ∧
      (∀ err, E.New = .ok () → E.Login = some err →
        yubikeyMain E X R st now1 now2 now3 now4 =
          { exit := .fatal ("logging into yubikey: " ++ err), opened := true,
            closed := false }) ∧
      (∀ err, E.New = .ok () → E.Login = none → E.Authenticate = some err →
        yubikeyMain E X R st now1 now2 now3 now4 =
          { exit := .fatal ("authenticating to yubikey: " ++ err), opened := true,
            closed := false }) ∧
      (∀ err, E.New = .ok () → E.Login = none → E.Authenticate = none →
        E.GenerateECWithPolicies = .error err →
        yubikeyMain E X R st now1 now2 now3 now4 =
          { exit := .fatal ("generating key on cert: " ++ err), opened := true,
            closed := false }) := by
  refine ⟨?_, ?_, ?_, ?_⟩
  · intro hopen
    unfold yubikeyMain at hopen ⊢
    cases hN : E.New with
    | error e => simp [hN] at hopen
    | ok u =>
      cases u
      simp only []
      generalize (match yubikeyMainBody E X R st now1 now2 now3 now4 with
        | .error e => e
        | .ok () => Exit.returned) = ex
      cases ex <;> simp [Exit.runsDeferred]
  · intro err hN hL
    simp [yubikeyMain, hN, yubikeyMainBody, hL, fatalIfErr, Exit.runsDeferred, bind,
      Except.bind]
  · intro err hN hL hA
    simp [yubikeyMain, hN, yubikeyMainBody, hL, hA, fatalIfErr, Exit.runsDeferred, bind,
      Except.bind]
  · intro err hN hL hA hG
    simp [yubikeyMain, hN, yubikeyMainBody, hL, hA, hG, fatalIfErr, fatalUnlessOk,
      Exit.runsDeferred, bind, Except.bind]

/-- Witness of C12: on the token whose PIN is wrong the program ends by
`log.Fatalf` with the token opened and `yk.Close` not run; on the token on which
every call succeeds `main` returns and `yk.Close` has run. -/
theorem yubikeyMain_closed_iff_not_fatal_witness :
    yubikeyMain tokenWrongPIN toyX509 listRand [9, 21] 100 101 102 103 =
        { exit := .fatal ("logging into yubikey: " ++ "wrong PIN"), opened := true,
          closed := false } ∧
      yubikeyMain tokenOk toyX509 listRand [9, 21] 100 101 102 103 =
        { exit := .returned, opened := true, closed := true } :=
  ⟨(yubikeyMain_closed_iff_not_fatal tokenWrongPIN toyX509 listRand [9, 21]
      100 101 102 103).2.1 "wrong PIN" rfl rfl, rfl⟩

/-- C13: `GetCertificate` returns the example.org certificate and no error for
the server name "example.org", the spam.org certificate and no error for
"spam.org", and for every other server name no certificate and the error that
names the server name asked for. -/
theorem GetCertificate_by_server_name (certExample certSpam : TLSCertificate) :
    GetCertificate certExample certSpam { ServerName := "example.org" } =
        (some certExample, none) ∧
      GetCertificate certExample certSpam { ServerName := "spam.org" } =
        (some certSpam, none) ∧
      ∀ hello : ClientHelloInfo, hello.ServerName ≠ "example.org" →
        hello.ServerName ≠ "spam.org" →
        GetCertificate certExample certSpam hello =
          (none, some ("unknown server name: " ++ hello.ServerName)) := by
  refine ⟨?_, ?_, ?_⟩
  · simp [GetCertificate]
  · simp [GetCertificate]
  · intro hello h1 h2
    simp [GetCertificate, h1, h2]

/-- Witness of C13: the empty name, a name in another case and a name with a
trailing dot get no certificate and the error that names them. -/
theorem GetCertificate_by_server_name_witness :
    GetCertificate certExampleOrg certSpamOrg { ServerName := "" } =
        (none, some ("unknown server name: " ++ "")) ∧
      GetCertificate certExampleOrg certSpamOrg { ServerName := "Example.org" } =
        (none, some ("unknown server name: " ++ "Example.org")) ∧
      GetCertificate certExampleOrg certSpamOrg { ServerName := "example.org." } =
        (none, some ("unknown server name: " ++ "example.org.")) :=
  ⟨(GetCertificate_by_server_name certExampleOrg certSpamOrg).2.2 { ServerName := "" }
      (by decide) (by decide),
    (GetCertificate_by_server_name certExampleOrg certSpamOrg).2.2
      { ServerName := "Example.org" } (by decide) (by decide),
    (GetCertificate_by_server_name certExampleOrg certSpamOrg).2.2
      { ServerName := "example.org." } (by decide) (by decide)⟩

/-- C14: when no verified chain has two certificates or more, `verifyOCSP`
returns nil for any two non-empty staples, whatever their bytes: both results
are nil, and no pair is examined, so the staple is neither parsed nor
signature-checked nor status-checked. -/
theorem verifyOCSP_short_chains_any_staple (L : OCSPLib) (chains : List (List Certificate))
    (s1 s2 : Bytes) (h1 : s1 ≠ []) (h2 : s2 ≠ [])
    (hshort : ∀ chain ∈ chains, chain.length < 2) :
    verifyOCSP L { OCSPResponse := s1, VerifiedChains := chains } = none ∧
      verifyOCSP L { OCSPResponse := s2, VerifiedChains := chains } = none ∧
      verifyOCSP L { OCSPResponse := s1, VerifiedChains := chains } =
        verifyOCSP L { OCSPResponse := s2, VerifiedChains := chains } ∧
      (verifyOCSPLog L { OCSPResponse := s1, VerifiedChains := chains }).1 = [] ∧
      (verifyOCSPLog L { OCSPResponse := s2, VerifiedChains := chains }).1 = [] := by
  have key : ∀ s : Bytes, s ≠ [] →
      verifyOCSP L { OCSPResponse := s, VerifiedChains := chains } = none ∧
        (verifyOCSPLog L { OCSPResponse := s, VerifiedChains := chains }).1 = [] := by
    intro s hs
    have hlen : ¬ s.length = 0 := fun h => hs (List.length_eq_zero.mp h)
    constructor
    · simp only [verifyOCSP, hlen, if_false, List.findSome?_eq_none_iff]
      intro chain hmem
      exact verifyChain_short L s chain (hshort chain hmem)
    · simp only [verifyOCSPLog, hlen, if_false, verifyChainsLog_eq,
        adjacentPairs_flatten_short chains hshort]
      rfl
  obtain ⟨a1, b1⟩ := key s1 h1
  obtain ⟨a2, b2⟩ := key s2 h2
  exact ⟨a1, a2, a1.trans a2.symm, b1, b2⟩

/-- Witness of C14: with a single-certificate chain and an empty chain, a
staple of one arbitrary byte and the revoked staple of the leaf both pass. -/
theorem verifyOCSP_short_chains_any_staple_witness :
    verifyOCSP toyOCSP { OCSPResponse := [99], VerifiedChains := [[leafCert], []] } = none ∧
      verifyOCSP toyOCSP
        { OCSPResponse := stapleLeafRevoked, VerifiedChains := [[leafCert], []] } = none := by
  have h := verifyOCSP_short_chains_any_staple toyOCSP [[leafCert], []] [99] stapleLeafRevoked
    (by decide) (by decide) (by
      intro chain hmem
      simp only [List.mem_cons, List.mem_singleton, List.not_mem_nil, or_false] at hmem
      rcases hmem with rfl | rfl <;> decide)
  exact ⟨h.1, h.2.1⟩

end TLS
